import Mathlib

/-!
Shallow embedding of the authentication and session-lifecycle core of the
`go-clean-architecture` repository: the Redis-backed token blacklist service,
the login-attempt lockout service, the JWT middleware (token codec and request
gate), and the auth use-case orchestration (Login, RefreshToken,
LogoutAllDevices).

Modelling conventions:
* Time is a discrete clock of whole seconds (`Nat`); durations (`time.Duration`
  in Go) are whole seconds.  A Redis key with absolute expiry `e` is live at
  time `now` iff `now < e`.
* The shared Redis store is an explicit state record; a single `reachable`
  flag models store availability, and every store round-trip fails
  (`Except.error`) when it is `false` — matching the Go code, where each
  Redis call returns an error when the store is unreachable.
* HMAC signing is modelled as a perfect MAC: a signed token carries its
  claims together with the secret it was signed with, and validation checks
  that secret against the verifier's configured secret.
* `uuid.New().String()` is modelled by passing the freshly generated JTI as an
  explicit argument.
* bcrypt (`pkg/password`, an external collaborator consumed as
  `verify(plaintext, digest) -> bool`) is modelled by a concrete executable
  digest function.
-/

namespace GoClean

/-! ### Association lists (model of Redis keyspaces) -/

/-- Lookup in an association list keyed by strings. -/
def AList.find? {α : Type} (k : String) : List (String × α) → Option α
  | [] => none
  | (k', v) :: rest => if k' = k then some v else AList.find? k rest

/-- Remove every binding of key `k`. -/
def AList.erase {α : Type} (k : String) (l : List (String × α)) : List (String × α) :=
  l.filter (fun p => p.1 ≠ k)

/-- Insert (or overwrite) the binding of key `k`. -/
def AList.insert {α : Type} (k : String) (v : α) (l : List (String × α)) :
    List (String × α) :=
  (k, v) :: AList.erase k l

theorem AList.find_erase_ne {α : Type} (k k' : String) (l : List (String × α))
    (h : k' ≠ k) : AList.find? k' (AList.erase k l) = AList.find? k' l := by
  induction l with
  | nil => rfl
  | cons p rest ih =>
    by_cases hp : p.1 = k
    · have hpk' : p.1 ≠ k' := by rw [hp]; exact fun hh => h hh.symm
      rw [show AList.erase k (p :: rest) = AList.erase k rest by
        simp [AList.erase, List.filter_cons, hp]]
      rw [ih]
      simp [AList.find?, hpk']
    · rw [show AList.erase k (p :: rest) = p :: AList.erase k rest by
        simp [AList.erase, List.filter_cons, hp]]
      by_cases hk' : p.1 = k'
      · simp [AList.find?, hk']
      · simp [AList.find?, hk', ih]

theorem AList.find_insert_self {α : Type} (k : String) (v : α)
    (l : List (String × α)) : AList.find? k (AList.insert k v l) = some v := by
  simp [AList.insert, AList.find?]

theorem AList.find_insert_ne {α : Type} (k k' : String) (v : α)
    (l : List (String × α)) (h : k' ≠ k) :
    AList.find? k' (AList.insert k v l) = AList.find? k' l := by
  have hne : k ≠ k' := fun hh => h hh.symm
  simp [AList.insert, AList.find?, hne]
  exact AList.find_erase_ne k k' l h

/-! ### Shared Redis store state -/

/-- The shared TTL-keyed store.  Each keyspace maps a key to its payload and
absolute expiry time (seconds); `now` is the current clock and `reachable`
models store availability. -/
structure RedisState where
  now : Nat
  reachable : Bool
  /-- `token_blacklist:{jti}` → absolute expiry. -/
  blacklist : List (String × Nat)
  /-- `user_tokens:{userID}` → (set members, absolute expiry of the set key). -/
  userTokens : List (String × (List String × Nat))
  /-- `token_user:{jti}` → (userID, absolute expiry). -/
  tokenUser : List (String × (String × Nat))
  /-- `login_attempts:{username}` → (counter value, absolute expiry). -/
  loginAttempts : List (String × (Nat × Nat))
  /-- `account_locked:{username}` → absolute expiry. -/
  accountLocked : List (String × Nat)
deriving DecidableEq, Repr

/-- Is `jti` currently blacklisted (key exists and not yet expired)? -/
def RedisState.liveBlacklist (s : RedisState) (jti : String) : Bool :=
  match AList.find? jti s.blacklist with
  | some e => decide (s.now < e)
  | none => false

/-- The live member list of `user_tokens:{userID}` (empty if absent/expired). -/
def RedisState.userSet (s : RedisState) (userID : String) : List String :=
  match AList.find? userID s.userTokens with
  | some (l, e) => if s.now < e then l else []
  | none => []

/-- Advance the clock of a state to time `n`. -/
def RedisState.withNow (s : RedisState) (n : Nat) : RedisState :=
  { s with now := n }

/-! ### RedisTokenBlacklistService (src/internal/di/wire.go) -/

/-- The Redis-backed token blacklist service: only configuration is the
`enabled` flag (`TokenBlacklistConfig.Enabled`). -/
structure RedisTokenBlacklistService where
  enabled : Bool
deriving DecidableEq, Repr

namespace RedisTokenBlacklistService

/-- `RevokeAllUserTokens` blacklists with this fixed TTL
(`defaultBlacklistTTL := 24 * time.Hour` in the source). -/
def revokeAllBlacklistTTL : Nat := 24 * 60 * 60

/-- `if ttl < time.Second { ttl = time.Second }`: clamp a TTL to a minimum of
one second. -/
def clamp1 (ttl : Nat) : Nat := if ttl < 1 then 1 else ttl

/-- `Blacklist(ctx, jti, ttl)`: insert a revocation marker; TTL clamped to a
minimum of one second; fails on empty `jti` or unreachable store. -/
def Blacklist (svc : RedisTokenBlacklistService) (s : RedisState)
    (jti : String) (ttl : Nat) : Except String RedisState :=
  if svc.enabled = false then .ok s
  else if jti = "" then .error "jti cannot be empty"
  else if s.reachable = false then .error "failed to blacklist token"
  else .ok { s with blacklist := AList.insert jti (s.now + clamp1 ttl) s.blacklist }

/-- `IsBlacklisted(ctx, jti)`: membership check on the blacklist keyspace. -/
def IsBlacklisted (svc : RedisTokenBlacklistService) (s : RedisState)
    (jti : String) : Except String Bool :=
  if svc.enabled = false then .ok false
  else if jti = "" then .ok false
  else if s.reachable = false then .error "failed to check token blacklist"
  else .ok (s.liveBlacklist jti)

/-- `SADD` member semantics: add without duplication. -/
def addMember (jti : String) (l : List String) : List String :=
  if l.contains jti then l else l ++ [jti]

/-- `TrackUserToken(ctx, userID, jti, ttl)`: add `jti` to the user's live set;
extend the set's expiry only when the key is absent/expired or the new TTL is
strictly greater than the remaining TTL; also record `token_user:{jti}`. -/
def TrackUserToken (svc : RedisTokenBlacklistService) (s : RedisState)
    (userID jti : String) (ttl : Nat) : Except String RedisState :=
  if svc.enabled = false then .ok s
  else if userID = "" ∨ jti = "" then .error "userID and jti cannot be empty"
  else if s.reachable = false then .error "failed to get current TTL"
  else
    match AList.find? userID s.userTokens with
    | some (l, e) =>
      if s.now < e then
        -- key exists with remaining TTL `e - s.now`
        .ok { s with
          userTokens := AList.insert userID
            (addMember jti l,
             if e - s.now < clamp1 ttl then s.now + clamp1 ttl else e) s.userTokens,
          tokenUser := AList.insert jti (userID, s.now + clamp1 ttl) s.tokenUser }
      else
        -- key expired: TTL reports "no key"; SADD recreates the set
        .ok { s with
          userTokens := AList.insert userID ([jti], s.now + clamp1 ttl) s.userTokens,
          tokenUser := AList.insert jti (userID, s.now + clamp1 ttl) s.tokenUser }
    | none =>
      .ok { s with
        userTokens := AList.insert userID ([jti], s.now + clamp1 ttl) s.userTokens,
        tokenUser := AList.insert jti (userID, s.now + clamp1 ttl) s.tokenUser }

/-- `GetUserActiveTokens(ctx, userID)`: the tracked set filtered to drop any
member that is already blacklisted (members whose inner check errors are
skipped, i.e. dropped). -/
def GetUserActiveTokens (svc : RedisTokenBlacklistService) (s : RedisState)
    (userID : String) : Except String (List String) :=
  if svc.enabled = false then .ok []
  else if userID = "" then .ok []
  else if s.reachable = false then .error "failed to get user active tokens"
  else
    .ok ((s.userSet userID).filter (fun jti =>
      match svc.IsBlacklisted s jti with
      | .ok b => !b
      | .error _ => false))

/-- `GetUserActiveTokenCount(ctx, userID)`: `SCARD` of the tracked set —
no blacklist filtering. -/
def GetUserActiveTokenCount (svc : RedisTokenBlacklistService) (s : RedisState)
    (userID : String) : Except String Nat :=
  if svc.enabled = false then .ok 0
  else if userID = "" then .ok 0
  else if s.reachable = false then .error "failed to get user token count"
  else .ok (s.userSet userID).length

/-- `RevokeAllUserTokens(ctx, userID)`: read the full live set, blacklist every
member with the uniform 24h TTL, delete each `token_user` mapping, and delete
the set. -/
def RevokeAllUserTokens (svc : RedisTokenBlacklistService) (s : RedisState)
    (userID : String) : Except String RedisState :=
  if svc.enabled = false then .ok s
  else if userID = "" then .error "userID cannot be empty"
  else if s.reachable = false then .error "failed to get user tokens"
  else
    let tokens := s.userSet userID
    if tokens = [] then .ok s
    else .ok { s with
      blacklist := tokens.foldl
        (fun bl jti => AList.insert jti (s.now + revokeAllBlacklistTTL) bl)
        s.blacklist,
      tokenUser := tokens.foldl (fun tu jti => AList.erase jti tu) s.tokenUser,
      userTokens := AList.erase userID s.userTokens }

/-- `UntrackUserToken(ctx, userID, jti)`: `SREM` the member and delete the
`token_user` mapping; empty arguments are a silent no-op (returns nil). -/
def UntrackUserToken (svc : RedisTokenBlacklistService) (s : RedisState)
    (userID jti : String) : Except String RedisState :=
  if svc.enabled = false then .ok s
  else if userID = "" ∨ jti = "" then .ok s
  else if s.reachable = false then .error "failed to untrack user token"
  else
    .ok { s with
      userTokens :=
        match AList.find? userID s.userTokens with
        | some (l, e) =>
          AList.insert userID (l.filter (fun j => j ≠ jti), e) s.userTokens
        | none => s.userTokens,
      tokenUser := AList.erase jti s.tokenUser }

end RedisTokenBlacklistService

/-! ### RedisLoginAttemptService (src/internal/di/wire.go) -/

/-- The Redis-backed login-attempt guard
(configured from `AccountLockoutConfig`). -/
structure RedisLoginAttemptService where
  maxAttempts : Nat
  lockoutDuration : Nat
  enabled : Bool
deriving DecidableEq, Repr

namespace RedisLoginAttemptService

/-- Current live counter value for a username (0 if absent/expired),
matching `INCR` semantics on a TTL-expired key. -/
def attemptsValue (s : RedisState) (username : String) : Nat :=
  match AList.find? username s.loginAttempts with
  | some (n, e) => if s.now < e then n else 0
  | none => 0

/-- `Lock(ctx, username)`: write the `account_locked` marker with
TTL = lockout duration. -/
def Lock (g : RedisLoginAttemptService) (s : RedisState) (username : String) :
    Except String RedisState :=
  if g.enabled = false then .ok s
  else if s.reachable = false then .error "failed to lock account"
  else .ok { s with
    accountLocked := AList.insert username (s.now + g.lockoutDuration) s.accountLocked }

/-- `IncrementAttempts(ctx, username)`: `INCR` + `EXPIRE lockoutDuration` in one
pipeline; when the new value reaches `maxAttempts`, also lock the account. -/
def IncrementAttempts (g : RedisLoginAttemptService) (s : RedisState)
    (username : String) : Except String (Nat × RedisState) :=
  if g.enabled = false then .ok (0, s)
  else if s.reachable = false then .error "failed to increment login attempts"
  else
    let n := attemptsValue s username + 1
    let s' := { s with
      loginAttempts := AList.insert username (n, s.now + g.lockoutDuration) s.loginAttempts }
    if g.maxAttempts ≤ n then
      match g.Lock s' username with
      | .ok s'' => .ok (n, s'')
      | .error e => .error e
    else .ok (n, s')

/-- `ResetAttempts(ctx, username)`: delete both the counter and the lock. -/
def ResetAttempts (g : RedisLoginAttemptService) (s : RedisState)
    (username : String) : Except String RedisState :=
  if g.enabled = false then .ok s
  else if s.reachable = false then .error "failed to reset login attempts"
  else .ok { s with
    loginAttempts := AList.erase username s.loginAttempts,
    accountLocked := AList.erase username s.accountLocked }

/-- `IsLocked(ctx, username)`: does the `account_locked` marker exist? -/
def IsLocked (g : RedisLoginAttemptService) (s : RedisState)
    (username : String) : Except String Bool :=
  if g.enabled = false then .ok false
  else if s.reachable = false then .error "failed to check account lock status"
  else .ok (match AList.find? username s.accountLocked with
    | some e => decide (s.now < e)
    | none => false)

/-- `GetRemainingLockTime(ctx, username)`: remaining TTL of the lock marker in
seconds (0 when absent or expired — `TTL` is negative there). -/
def GetRemainingLockTime (g : RedisLoginAttemptService) (s : RedisState)
    (username : String) : Except String Nat :=
  if g.enabled = false then .ok 0
  else if s.reachable = false then .error "failed to get remaining lock time"
  else .ok (match AList.find? username s.accountLocked with
    | some e => if s.now < e then e - s.now else 0
    | none => 0)

end RedisLoginAttemptService

/-! ### JWT token codec and request gate (src/unnamed/part_010, package middleware) -/

/-- `UserClaims`: registered claims (`ID` = JTI, `ExpiresAt`, `IssuedAt`,
`Subject`, `Issuer`) plus custom `UserID`, `Role`, `Email`. -/
structure UserClaims where
  id : String := ""
  expiresAt : Option Nat := none
  issuedAt : Nat := 0
  subject : String := ""
  issuer : String := ""
  userID : String := ""
  role : String := ""
  email : String := ""
deriving DecidableEq, Repr

/-- A signed JWT, modelling HMAC-SHA256 as a perfect MAC: the token records the
secret it was signed with, and verification compares it with the configured
secret. -/
structure SignedToken where
  claims : UserClaims
  signedWith : String
deriving DecidableEq, Repr

/-- `TokenInfo`: generated token plus its JTI and TTL (for tracking). -/
structure TokenInfo where
  token : SignedToken
  jti : String
  ttl : Nat
deriving DecidableEq, Repr

/-- `JWTAuthMiddleware`: signing secret, TTLs, enabled flag and the optional
blacklist service (nil in Go ↦ `none`). -/
structure JWTAuthMiddleware where
  secretKey : String
  accessTokenTTL : Nat
  refreshTokenTTL : Nat
  enabled : Bool
  blacklistService : Option RedisTokenBlacklistService
deriving DecidableEq, Repr

namespace JWTAuthMiddleware

/-- `GenerateAccessTokenWithInfo(userID, role, email)`; the freshly generated
UUID is the explicit `jti` argument, `now` the current time. -/
def GenerateAccessTokenWithInfo (j : JWTAuthMiddleware) (now : Nat)
    (jti userID role email : String) : TokenInfo :=
  { token :=
      { claims :=
          { id := jti
            expiresAt := some (now + j.accessTokenTTL)
            issuedAt := now
            issuer := "restaurant-api"
            userID := userID
            role := role
            email := email }
        signedWith := j.secretKey }
    jti := jti
    ttl := j.accessTokenTTL }

/-- `GenerateRefreshTokenWithInfo(userID)`: plain registered claims only —
`Subject` carries the user id; the custom fields stay empty. -/
def GenerateRefreshTokenWithInfo (j : JWTAuthMiddleware) (now : Nat)
    (jti userID : String) : TokenInfo :=
  { token :=
      { claims :=
          { id := jti
            expiresAt := some (now + j.refreshTokenTTL)
            issuedAt := now
            subject := userID
            issuer := "restaurant-api" }
        signedWith := j.secretKey }
    jti := jti
    ttl := j.refreshTokenTTL }

/-- `ValidateToken`: signature check plus claims validation (expiry). -/
def ValidateToken (j : JWTAuthMiddleware) (now : Nat) (t : SignedToken) :
    Except String UserClaims :=
  if t.signedWith ≠ j.secretKey then .error "signature is invalid"
  else match t.claims.expiresAt with
    | some e => if now < e then .ok t.claims else .error "token is expired"
    | none => .ok t.claims

/-- `ParseTokenIgnoreExpiry`: signature check only
(`jwt.WithoutClaimsValidation`). -/
def ParseTokenIgnoreExpiry (j : JWTAuthMiddleware) (t : SignedToken) :
    Except String UserClaims :=
  if t.signedWith ≠ j.secretKey then .error "signature is invalid"
  else .ok t.claims

/-- `GetTokenRemainingTime(claims)`: time until expiry, clamped at 0. -/
def GetTokenRemainingTime (now : Nat) (c : UserClaims) : Nat :=
  match c.expiresAt with
  | none => 0
  | some e => e - now

/-- Outcome of the request-gate middleware for one request. -/
inductive GateDecision where
  /-- Authenticated: claims stored in the request context, handler runs. -/
  | next (claims : UserClaims)
  /-- Middleware disabled: request passes through unauthenticated. -/
  | passthrough
  /-- Request aborted with the given HTTP status. -/
  | abort (status : Nat)
deriving DecidableEq, Repr

/-- `Middleware()`: extract the bearer token (modelled as
`Option SignedToken`; `none` = missing/malformed header), validate it, then
check the blacklist — aborting 503 when that lookup fails. -/
def Middleware (j : JWTAuthMiddleware) (s : RedisState)
    (authHeader : Option SignedToken) : GateDecision :=
  if j.enabled = false then .passthrough
  else match authHeader with
  | none => .abort 401
  | some tok =>
    match j.ValidateToken s.now tok with
    | .error _ => .abort 401
    | .ok claims =>
      match j.blacklistService with
      | some svc =>
        if claims.id ≠ "" then
          match svc.IsBlacklisted s claims.id with
          | .error _ => .abort 503
          | .ok true => .abort 401
          | .ok false => .next claims
        else .next claims
      | none => .next claims

/-- `GetBlacklistService()`. -/
def GetBlacklistService (j : JWTAuthMiddleware) :
    Option RedisTokenBlacklistService :=
  j.blacklistService

end JWTAuthMiddleware

/-! ### AuthUseCase (src/internal/application/usecase/user_usecase.go) -/

/-- `entity.User` (the fields the auth flows read). -/
structure User where
  id : String
  username : String
  email : String
  passwordHash : String
  role : String
  isActive : Bool
  isEmailVerified : Bool
deriving DecidableEq, Repr

/-- Model of the bcrypt collaborator `pkg/password`, consumed at its interface
boundary as `verify(plaintext, digest) -> bool`: a digest matches exactly the
plaintext it was derived from. -/
def Password.Hash (plain : String) : String := "bcrypt$" ++ plain

/-- `password.Verify(password, hash)`. -/
def Password.Verify (plain digest : String) : Bool :=
  digest = Password.Hash plain

/-- Auth-flow errors (`ErrInvalidCredentials`, `ErrUserInactive`, …;
`AccountLockedError` carries the remaining lock seconds). -/
inductive AuthError where
  | invalidCredentials
  | userInactive
  | userNotFound
  | invalidToken
  | accountLocked (remainingSeconds : Nat)
deriving DecidableEq, Repr

/-- `AuthResult`: the minted pair plus metadata. -/
structure AuthResult where
  user : User
  accessToken : SignedToken
  refreshToken : SignedToken
  expiresIn : Nat
deriving DecidableEq, Repr

/-- `AuthUseCase`: the JWT middleware (which owns the blacklist service), the
optional login-attempt guard, and the user repository (modelled as the list of
stored users; `FindByUsername`/`FindByID` scan it). -/
structure AuthUseCase where
  jwtAuth : JWTAuthMiddleware
  loginAttemptService : Option RedisLoginAttemptService
  users : List User
deriving DecidableEq, Repr

namespace AuthUseCase

/-- `userRepo.FindByUsername`. -/
def findByUsername (uc : AuthUseCase) (username : String) : Option User :=
  uc.users.find? (fun u => u.username = username)

/-- `userRepo.FindByID`. -/
def findByID (uc : AuthUseCase) (id : String) : Option User :=
  uc.users.find? (fun u => u.id = id)

/-- `_ = f(...)`: a best-effort store write — keep the new state on success,
keep the old state when the call errored (the Go code discards the error). -/
def bestEffort (s : RedisState) : Except String RedisState → RedisState
  | .ok s' => s'
  | .error _ => s

/-- `_, _ = uc.loginAttemptService.IncrementAttempts(...)`: best-effort
failed-attempt increment — count and error are both discarded. -/
def incrementDiscard : Option RedisLoginAttemptService → RedisState → String → RedisState
  | some g, s, u =>
    match g.IncrementAttempts s u with
    | .ok (_, s') => s'
    | .error _ => s
  | none, s, _ => s

/-- `generateAuthResult`: mint the access and refresh tokens (fresh JTIs
`jtiA`, `jtiR`), best-effort track both against the user, and return the
result.  Signing cannot fail in the model. -/
def generateAuthResult (uc : AuthUseCase) (s : RedisState) (user : User)
    (jtiA jtiR : String) : Except AuthError AuthResult × RedisState :=
  let ai := uc.jwtAuth.GenerateAccessTokenWithInfo s.now jtiA user.id user.role user.email
  let ri := uc.jwtAuth.GenerateRefreshTokenWithInfo s.now jtiR user.id
  let s :=
    match uc.jwtAuth.GetBlacklistService with
    | some svc =>
      let s1 := bestEffort s (svc.TrackUserToken s user.id ai.jti ai.ttl)
      bestEffort s1 (svc.TrackUserToken s1 user.id ri.jti ri.ttl)
    | none => s
  (.ok { user := user, accessToken := ai.token, refreshToken := ri.token,
         expiresIn := ai.ttl }, s)

/-- `Login(ctx, input)`: lockout gate (skipped when the `IsLocked` lookup
errors), then principal lookup, active check, password check; failures
increment the attempt counter (best-effort), success resets it and mints a
token pair. -/
def Login (uc : AuthUseCase) (s : RedisState) (username pw : String)
    (jtiA jtiR : String) : Except AuthError AuthResult × RedisState :=
  let locked? : Option Nat :=
    match uc.loginAttemptService with
    | some g =>
      match g.IsLocked s username with
      | .ok true =>
        -- `remainingTime, _ :=` — the lookup error is discarded, 0 on error
        some (match g.GetRemainingLockTime s username with
              | .ok n => n
              | .error _ => 0)
      | .ok false => none
      | .error _ => none   -- `err == nil && isLocked` is false: gate skipped
    | none => none
  match locked? with
  | some remaining => (.error (.accountLocked remaining), s)
  | none =>
    match uc.findByUsername username with
    | none =>
      (.error .invalidCredentials, incrementDiscard uc.loginAttemptService s username)
    | some user =>
      if user.isActive = false then (.error .userInactive, s)
      else if Password.Verify pw user.passwordHash = false then
        (.error .invalidCredentials, incrementDiscard uc.loginAttemptService s username)
      else
        let s' :=
          match uc.loginAttemptService with
          | some g => bestEffort s (g.ResetAttempts s username)
          | none => s
        uc.generateAuthResult s' user jtiA jtiR

/-- Rotation housekeeping inside `RefreshToken`: best-effort blacklist (only
when the remaining TTL is positive) and untrack of a token's JTI. -/
def revokeHousekeeping (s : RedisState)
    (svc : RedisTokenBlacklistService) (userID : String) (claims : UserClaims) :
    RedisState :=
  let remainingTTL := JWTAuthMiddleware.GetTokenRemainingTime s.now claims
  let s1 := if 0 < remainingTTL then bestEffort s (svc.Blacklist s claims.id remainingTTL) else s
  bestEffort s1 (svc.UntrackUserToken s1 userID claims.id)

/-- The `oldAccessToken` leg of `RefreshToken`: parse ignoring expiry and, when
a JTI is recovered and the blacklist service is present, best-effort revoke it
(`oldAccess = none` models the empty `oldAccessToken` string). -/
def oldAccessHousekeeping (uc : AuthUseCase) (s : RedisState) (userID : String) :
    Option SignedToken → RedisState
  | some oa =>
    match uc.jwtAuth.ParseTokenIgnoreExpiry oa with
    | .ok oldClaims =>
      if oldClaims.id ≠ "" then
        match uc.jwtAuth.GetBlacklistService with
        | some svc => revokeHousekeeping s svc userID oldClaims
        | none => s
      else s
    | .error _ => s
  | none => s

/-- `RefreshToken(ctx, refreshToken, oldAccessToken)`: validate, reuse-detect
against the blacklist (only when the lookup succeeds), resolve the subject,
best-effort revoke the old refresh token and (when supplied) the old access
token, re-check the principal, then mint a fresh pair.  `oldAccess = none`
models the empty `oldAccessToken` string. -/
def RefreshToken (uc : AuthUseCase) (s : RedisState) (refreshTok : SignedToken)
    (oldAccess : Option SignedToken) (jtiA jtiR : String) :
    Except AuthError AuthResult × RedisState :=
  match uc.jwtAuth.ValidateToken s.now refreshTok with
  | .error _ => (.error .invalidToken, s)
  | .ok claims =>
    let reuse :=
      if claims.id ≠ "" then
        match uc.jwtAuth.GetBlacklistService with
        | some svc =>
          match svc.IsBlacklisted s claims.id with
          | .ok b => b      -- `err == nil && isBlacklisted`
          | .error _ => false
        | none => false
      else false
    if reuse then (.error .invalidToken, s)
    else
      let userID := if claims.subject ≠ "" then claims.subject else claims.userID
      if userID = "" then (.error .invalidToken, s)
      else
        let s1 :=
          if claims.id ≠ "" then
            match uc.jwtAuth.GetBlacklistService with
            | some svc => revokeHousekeeping s svc userID claims
            | none => s
          else s
        let s2 := oldAccessHousekeeping uc s1 userID oldAccess
        match uc.findByID userID with
        | none => (.error .userNotFound, s2)
        | some user =>
          if user.isActive = false then (.error .userInactive, s2)
          else uc.generateAuthResult s2 user jtiA jtiR

/-- `LogoutAllDevices(ctx, userID)`: delegate to `RevokeAllUserTokens`
(no-op success when the blacklist service is absent). -/
def LogoutAllDevices (uc : AuthUseCase) (s : RedisState) (userID : String) :
    Except String Unit × RedisState :=
  match uc.jwtAuth.GetBlacklistService with
  | none => (.ok (), s)
  | some svc =>
    match svc.RevokeAllUserTokens s userID with
    | .ok s' => (.ok (), s')
    | .error e => (.error e, s)

end AuthUseCase

/-- `BlacklistToken(c, claims)` (the core of single-token Logout): blacklist
for the remaining TTL (no-op when expired or service absent) and best-effort
untrack. -/
def JWTAuthMiddleware.BlacklistToken (j : JWTAuthMiddleware) (s : RedisState)
    (claims : UserClaims) : Except String RedisState :=
  match j.blacklistService with
  | none => .ok s
  | some svc =>
    if claims.id = "" then .error "token has no JTI"
    else
      let ttl := JWTAuthMiddleware.GetTokenRemainingTime s.now claims
      if ttl = 0 then .ok s
      else
        match svc.Blacklist s claims.id ttl with
        | .error e => .error e
        | .ok s1 =>
          if claims.userID ≠ "" then
            .ok (AuthUseCase.bestEffort s1 (svc.UntrackUserToken s1 claims.userID claims.id))
          else .ok s1

/-! ### Configuration defaults (src/internal/infrastructure/config/config.go) -/

/-- Default `JWT_ACCESS_TOKEN_TTL` = "15m", in seconds. -/
def configDefaultAccessTokenTTL : Nat := 15 * 60

/-- Default `JWT_REFRESH_TOKEN_TTL` = "168h", in seconds. -/
def configDefaultRefreshTokenTTL : Nat := 168 * 60 * 60

/-- Default `ACCOUNT_LOCKOUT_MAX_ATTEMPTS` = 5. -/
def configDefaultMaxAttempts : Nat := 5

/-- Default `ACCOUNT_LOCKOUT_DURATION` = 15 minutes, in seconds. -/
def configDefaultLockoutDuration : Nat := 15 * 60

/-- Did an `Except`-returning operation succeed? -/
def isOk {ε α : Type} : Except ε α → Bool
  | .ok _ => true
  | .error _ => false

/-! ### Helper lemmas -/

theorem AList.find_erase_self {α : Type} (k : String) (l : List (String × α)) :
    AList.find? k (AList.erase k l) = none := by
  induction l with
  | nil => rfl
  | cons p rest ih =>
    by_cases hp : p.1 = k
    · simpa [AList.erase, List.filter_cons, hp] using ih
    · rw [show AList.erase k (p :: rest) = p :: AList.erase k rest by
        simp [AList.erase, List.filter_cons, hp]]
      simp [AList.find?, hp, ih]

namespace RedisTokenBlacklistService

theorem isBlacklisted_run (svc : RedisTokenBlacklistService) (s : RedisState)
    (jti : String) (hen : svc.enabled = true) (hr : s.reachable = true)
    (hj : jti ≠ "") : svc.IsBlacklisted s jti = .ok (s.liveBlacklist jti) := by
  simp [IsBlacklisted, hen, hr, hj]

theorem isBlacklisted_unreachable (svc : RedisTokenBlacklistService)
    (s : RedisState) (jti : String) (hen : svc.enabled = true)
    (hr : s.reachable = false) (hj : jti ≠ "") :
    svc.IsBlacklisted s jti = .error "failed to check token blacklist" := by
  simp [IsBlacklisted, hen, hr, hj]

theorem blacklist_run (svc : RedisTokenBlacklistService) (s : RedisState)
    (jti : String) (ttl : Nat) (hen : svc.enabled = true)
    (hr : s.reachable = true) (hj : jti ≠ "") :
    svc.Blacklist s jti ttl =
      .ok { s with blacklist :=
        AList.insert jti (s.now + clamp1 ttl) s.blacklist } := by
  simp [Blacklist, hen, hr, hj]

theorem blacklist_unreachable (svc : RedisTokenBlacklistService)
    (s : RedisState) (jti : String) (ttl : Nat) (hen : svc.enabled = true)
    (hr : s.reachable = false) (hj : jti ≠ "") :
    svc.Blacklist s jti ttl = .error "failed to blacklist token" := by
  simp [Blacklist, hen, hr, hj]

/-- `UntrackUserToken` never touches the blacklist keyspace, the clock or
reachability. -/
theorem untrack_preserves (svc : RedisTokenBlacklistService) (s s' : RedisState)
    (userID jti : String) (h : svc.UntrackUserToken s userID jti = .ok s') :
    s'.blacklist = s.blacklist ∧ s'.now = s.now ∧ s'.reachable = s.reachable := by
  unfold UntrackUserToken at h
  split at h
  · cases h; exact ⟨rfl, rfl, rfl⟩
  · split at h
    · cases h; exact ⟨rfl, rfl, rfl⟩
    · split at h
      · cases h
      · cases h; exact ⟨rfl, rfl, rfl⟩

/-- `TrackUserToken` never touches the blacklist keyspace, the clock or
reachability. -/
theorem track_preserves (svc : RedisTokenBlacklistService) (s s' : RedisState)
    (userID jti : String) (ttl : Nat)
    (h : svc.TrackUserToken s userID jti ttl = .ok s') :
    s'.blacklist = s.blacklist ∧ s'.now = s.now ∧ s'.reachable = s.reachable := by
  unfold TrackUserToken at h
  split at h
  · cases h; exact ⟨rfl, rfl, rfl⟩
  · split at h
    · cases h
    · split at h
      · cases h
      · split at h
        · next l e _ =>
          split at h
          · cases h; exact ⟨rfl, rfl, rfl⟩
          · cases h; exact ⟨rfl, rfl, rfl⟩
        · cases h; exact ⟨rfl, rfl, rfl⟩

end RedisTokenBlacklistService

namespace AuthUseCase

theorem bestEffort_untrack_preserves (svc : RedisTokenBlacklistService)
    (s : RedisState) (userID jti : String) :
    (bestEffort s (svc.UntrackUserToken s userID jti)).blacklist = s.blacklist ∧
    (bestEffort s (svc.UntrackUserToken s userID jti)).now = s.now ∧
    (bestEffort s (svc.UntrackUserToken s userID jti)).reachable = s.reachable := by
  unfold bestEffort
  split
  · next s' h => exact RedisTokenBlacklistService.untrack_preserves svc s s' userID jti h
  · exact ⟨rfl, rfl, rfl⟩

theorem bestEffort_track_preserves (svc : RedisTokenBlacklistService)
    (s : RedisState) (userID jti : String) (ttl : Nat) :
    (bestEffort s (svc.TrackUserToken s userID jti ttl)).blacklist = s.blacklist ∧
    (bestEffort s (svc.TrackUserToken s userID jti ttl)).now = s.now ∧
    (bestEffort s (svc.TrackUserToken s userID jti ttl)).reachable = s.reachable := by
  unfold bestEffort
  split
  · next s' h =>
    exact RedisTokenBlacklistService.track_preserves svc s s' userID jti ttl h
  · exact ⟨rfl, rfl, rfl⟩

/-- `generateAuthResult` always succeeds, returns the freshly minted pair, and
leaves the blacklist keyspace, clock and reachability untouched. -/
theorem generateAuthResult_run (uc : AuthUseCase) (s : RedisState) (user : User)
    (jtiA jtiR : String) :
    (uc.generateAuthResult s user jtiA jtiR).1 =
      .ok { user := user
            accessToken := (uc.jwtAuth.GenerateAccessTokenWithInfo s.now jtiA
              user.id user.role user.email).token
            refreshToken := (uc.jwtAuth.GenerateRefreshTokenWithInfo s.now jtiR
              user.id).token
            expiresIn := uc.jwtAuth.accessTokenTTL } ∧
    (uc.generateAuthResult s user jtiA jtiR).2.blacklist = s.blacklist ∧
    (uc.generateAuthResult s user jtiA jtiR).2.now = s.now ∧
    (uc.generateAuthResult s user jtiA jtiR).2.reachable = s.reachable := by
  unfold generateAuthResult
  cases hbs : uc.jwtAuth.GetBlacklistService with
  | none => exact ⟨rfl, rfl, rfl, rfl⟩
  | some svc =>
    simp only [hbs]
    refine ⟨rfl, ?_, ?_, ?_⟩ <;>
    · have h1 := bestEffort_track_preserves svc s user.id
        (uc.jwtAuth.GenerateAccessTokenWithInfo s.now jtiA user.id user.role user.email).jti
        (uc.jwtAuth.GenerateAccessTokenWithInfo s.now jtiA user.id user.role user.email).ttl
      have h2 := bestEffort_track_preserves svc
        (bestEffort s (svc.TrackUserToken s user.id
          (uc.jwtAuth.GenerateAccessTokenWithInfo s.now jtiA user.id user.role user.email).jti
          (uc.jwtAuth.GenerateAccessTokenWithInfo s.now jtiA user.id user.role user.email).ttl))
        user.id
        (uc.jwtAuth.GenerateRefreshTokenWithInfo s.now jtiR user.id).jti
        (uc.jwtAuth.GenerateRefreshTokenWithInfo s.now jtiR user.id).ttl
      simp only [h1.1, h1.2.1, h1.2.2, h2.1, h2.2.1, h2.2.2]

end AuthUseCase

/-! ### Claim C9 — access-token round-trip -/

/-- Claim C9: for every subject/role pair, validating the token produced by
`GenerateAccessTokenWithInfo(subject, role, email)` succeeds and recovers
exactly that subject (the `user_id` claim) and that role, provided validation
happens before the token's `expiresAt`. -/
theorem accessToken_roundtrip (j : JWTAuthMiddleware) (now now' : Nat)
    (jti userID role email : String)
    (h : now' < now + j.accessTokenTTL) :
    j.ValidateToken now'
        (j.GenerateAccessTokenWithInfo now jti userID role email).token =
      .ok (j.GenerateAccessTokenWithInfo now jti userID role email).token.claims ∧
    (j.GenerateAccessTokenWithInfo now jti userID role email).token.claims.userID
      = userID ∧
    (j.GenerateAccessTokenWithInfo now jti userID role email).token.claims.role
      = role := by
  refine ⟨?_, rfl, rfl⟩
  simp [JWTAuthMiddleware.ValidateToken, JWTAuthMiddleware.GenerateAccessTokenWithInfo, h]

/-- A concrete JWT configuration used by the C9 witness. -/
def c9jwt : JWTAuthMiddleware :=
  { secretKey := "secret", accessTokenTTL := 900, refreshTokenTTL := 7200,
    enabled := true, blacklistService := none }

/-- Witness for C9 at a concrete subject/role, validated before expiry. -/
theorem accessToken_roundtrip_witness :
    c9jwt.ValidateToken 100
        (c9jwt.GenerateAccessTokenWithInfo 0 "j1" "u1" "Staff" "a@b").token =
      .ok (c9jwt.GenerateAccessTokenWithInfo 0 "j1" "u1" "Staff" "a@b").token.claims ∧
    (c9jwt.GenerateAccessTokenWithInfo 0 "j1" "u1" "Staff" "a@b").token.claims.userID
      = "u1" ∧
    (c9jwt.GenerateAccessTokenWithInfo 0 "j1" "u1" "Staff" "a@b").token.claims.role
      = "Staff" :=
  accessToken_roundtrip c9jwt 0 100 "j1" "u1" "Staff" "a@b" (by decide)

/-! ### Claim C10 — disabled blacklist service is a success-reporting no-op -/

/-- Claim C10: when the token-blacklist service is disabled by configuration,
every operation is a success-reporting no-op: `Blacklist`, `TrackUserToken`,
`UntrackUserToken` and `RevokeAllUserTokens` return success leaving the store
untouched, `IsBlacklisted` always answers `false`, the active-token queries
return empty/zero, and `LogoutAllDevices` (and single-token logout via
`BlacklistToken`) report success while revoking nothing. -/
theorem disabled_blacklist_noop (svc : RedisTokenBlacklistService)
    (h : svc.enabled = false) (uc : AuthUseCase)
    (huc : uc.jwtAuth.blacklistService = some svc)
    (s : RedisState) (jti userID : String) (ttl : Nat) (claims : UserClaims)
    (hid : claims.id ≠ "") :
    svc.Blacklist s jti ttl = .ok s ∧
    svc.IsBlacklisted s jti = .ok false ∧
    svc.TrackUserToken s userID jti ttl = .ok s ∧
    svc.UntrackUserToken s userID jti = .ok s ∧
    svc.RevokeAllUserTokens s userID = .ok s ∧
    svc.GetUserActiveTokens s userID = .ok [] ∧
    svc.GetUserActiveTokenCount s userID = .ok 0 ∧
    uc.LogoutAllDevices s userID = (.ok (), s) ∧
    uc.jwtAuth.BlacklistToken s claims = .ok s := by
  have hbl : svc.Blacklist s jti ttl = .ok s := by
    simp [RedisTokenBlacklistService.Blacklist, h]
  have hblc : ∀ (j : String) (t : Nat), svc.Blacklist s j t = .ok s := fun j t => by
    simp [RedisTokenBlacklistService.Blacklist, h]
  have hrev : svc.RevokeAllUserTokens s userID = .ok s := by
    simp [RedisTokenBlacklistService.RevokeAllUserTokens, h]
  refine ⟨hbl, ?_, ?_, ?_, hrev, ?_, ?_, ?_, ?_⟩
  · simp [RedisTokenBlacklistService.IsBlacklisted, h]
  · simp [RedisTokenBlacklistService.TrackUserToken, h]
  · simp [RedisTokenBlacklistService.UntrackUserToken, h]
  · simp [RedisTokenBlacklistService.GetUserActiveTokens, h]
  · simp [RedisTokenBlacklistService.GetUserActiveTokenCount, h]
  · simp [AuthUseCase.LogoutAllDevices, JWTAuthMiddleware.GetBlacklistService, huc, hrev]
  · unfold JWTAuthMiddleware.BlacklistToken
    rw [huc]
    simp only [hid, if_false]
    split
    · rfl
    · rw [hblc claims.id (JWTAuthMiddleware.GetTokenRemainingTime s.now claims)]
      have hu : svc.UntrackUserToken s claims.userID claims.id = .ok s := by
        simp [RedisTokenBlacklistService.UntrackUserToken, h]
      simp [AuthUseCase.bestEffort, hu]

/-- A concrete disabled service, use case and populated store for the C10
witness. -/
def c10uc : AuthUseCase :=
  { jwtAuth :=
      { secretKey := "secret", accessTokenTTL := 900, refreshTokenTTL := 7200,
        enabled := true, blacklistService := some { enabled := false } },
    loginAttemptService := none,
    users := [] }

/-- The store the C10 witness runs against (a token is tracked so that the
no-op is observable). -/
def c10state : RedisState :=
  { now := 5, reachable := true, blacklist := [("x", 10)],
    userTokens := [("u", (["x"], 10))], tokenUser := [("x", ("u", 10))],
    loginAttempts := [], accountLocked := [] }

/-- Witness for C10 on a concrete disabled service and populated store. -/
theorem disabled_blacklist_noop_witness :
    ({ enabled := false } : RedisTokenBlacklistService).Blacklist c10state "x" 0 = .ok c10state ∧
    ({ enabled := false } : RedisTokenBlacklistService).IsBlacklisted c10state "x" = .ok false ∧
    ({ enabled := false } : RedisTokenBlacklistService).TrackUserToken c10state "u" "x" 0 = .ok c10state ∧
    ({ enabled := false } : RedisTokenBlacklistService).UntrackUserToken c10state "u" "x" = .ok c10state ∧
    ({ enabled := false } : RedisTokenBlacklistService).RevokeAllUserTokens c10state "u" = .ok c10state ∧
    ({ enabled := false } : RedisTokenBlacklistService).GetUserActiveTokens c10state "u" = .ok [] ∧
    ({ enabled := false } : RedisTokenBlacklistService).GetUserActiveTokenCount c10state "u" = .ok 0 ∧
    c10uc.LogoutAllDevices c10state "u" = (.ok (), c10state) ∧
    c10uc.jwtAuth.BlacklistToken c10state
      { id := "x", expiresAt := some 10, issuedAt := 0, subject := "",
        issuer := "restaurant-api", userID := "u", role := "Staff", email := "" }
      = .ok c10state :=
  disabled_blacklist_noop { enabled := false } rfl c10uc rfl c10state "x" "u" 0
    { id := "x", expiresAt := some 10, issuedAt := 0, subject := "",
      issuer := "restaurant-api", userID := "u", role := "Staff", email := "" }
    (by decide)

/-! ### Claim C8 — active-token enumeration vs count -/

/-- Counterexample to C8 as stated: with `j1` tracked and blacklisted,
`GetUserActiveTokens` filters it out (only `j2` remains) but
`GetUserActiveTokenCount` still reports 2: the count is the raw `SCARD` and
does not exclude blacklisted members. -/
theorem activeTokenCount_counterexample :
    ({ enabled := true } : RedisTokenBlacklistService).GetUserActiveTokens
        { now := 0, reachable := true, blacklist := [("j1", 100)],
          userTokens := [("alice", (["j1", "j2"], 100))], tokenUser := [],
          loginAttempts := [], accountLocked := [] } "alice" = .ok ["j2"] ∧
    ({ enabled := true } : RedisTokenBlacklistService).GetUserActiveTokenCount
        { now := 0, reachable := true, blacklist := [("j1", 100)],
          userTokens := [("alice", (["j1", "j2"], 100))], tokenUser := [],
          loginAttempts := [], accountLocked := [] } "alice" = .ok 2 ∧
    (2 : Nat) ≠ 1 :=
  ⟨rfl, rfl, by decide⟩

/-- Claim C8 (amended): `GetUserActiveTokens` excludes every blacklisted
member of the user's tracked set, but `GetUserActiveTokenCount` returns the
raw set cardinality with no blacklist filter, so the two can disagree when a
tracked JTI is blacklisted. -/
theorem activeTokens_filtered_count_raw (svc : RedisTokenBlacklistService)
    (hen : svc.enabled = true) (s : RedisState) (hr : s.reachable = true)
    (userID : String) (hu : userID ≠ "") :
    svc.GetUserActiveTokens s userID =
      .ok ((s.userSet userID).filter
        (fun jti => decide (jti = "") || !s.liveBlacklist jti)) ∧
    svc.GetUserActiveTokenCount s userID = .ok (s.userSet userID).length ∧
    ∀ jti, jti ≠ "" → s.liveBlacklist jti = true →
      ∀ l, svc.GetUserActiveTokens s userID = .ok l → jti ∉ l := by
  have hfil : ∀ jti ∈ s.userSet userID,
      (match svc.IsBlacklisted s jti with
        | .ok b => !b
        | .error _ => false) = (decide (jti = "") || !s.liveBlacklist jti) := by
    intro jti _
    by_cases hj : jti = ""
    · simp [RedisTokenBlacklistService.IsBlacklisted, hen, hr, hj]
    · simp [RedisTokenBlacklistService.IsBlacklisted, hen, hr, hj]
  have hmain : svc.GetUserActiveTokens s userID =
      .ok ((s.userSet userID).filter
        (fun jti => decide (jti = "") || !s.liveBlacklist jti)) := by
    unfold RedisTokenBlacklistService.GetUserActiveTokens
    simp only [hen, hu, hr, Bool.true_eq_false, if_false, ite_false]
    rw [List.filter_congr hfil]
  refine ⟨hmain, ?_, ?_⟩
  · simp [RedisTokenBlacklistService.GetUserActiveTokenCount, hen, hu, hr]
  · intro jti hj hbl l hl
    rw [hmain] at hl
    cases hl
    intro hmem
    have hpred := List.of_mem_filter hmem
    simp [hj, hbl] at hpred

/-- Witness for the amended C8 on the counterexample store: the filtered list
is `["j2"]` while the raw count is 2. -/
theorem activeTokens_filtered_count_raw_witness :
    ({ enabled := true } : RedisTokenBlacklistService).GetUserActiveTokens
        { now := 0, reachable := true, blacklist := [("j1", 100)],
          userTokens := [("alice", (["j1", "j2"], 100))], tokenUser := [],
          loginAttempts := [], accountLocked := [] } "alice" =
      .ok ((RedisState.userSet
        { now := 0, reachable := true, blacklist := [("j1", 100)],
          userTokens := [("alice", (["j1", "j2"], 100))], tokenUser := [],
          loginAttempts := [], accountLocked := [] } "alice").filter
        (fun jti => decide (jti = "") ||
          !RedisState.liveBlacklist
            { now := 0, reachable := true, blacklist := [("j1", 100)],
              userTokens := [("alice", (["j1", "j2"], 100))], tokenUser := [],
              loginAttempts := [], accountLocked := [] } jti)) ∧
    ({ enabled := true } : RedisTokenBlacklistService).GetUserActiveTokenCount
        { now := 0, reachable := true, blacklist := [("j1", 100)],
          userTokens := [("alice", (["j1", "j2"], 100))], tokenUser := [],
          loginAttempts := [], accountLocked := [] } "alice" =
      .ok (RedisState.userSet
        { now := 0, reachable := true, blacklist := [("j1", 100)],
          userTokens := [("alice", (["j1", "j2"], 100))], tokenUser := [],
          loginAttempts := [], accountLocked := [] } "alice").length ∧
    ∀ jti, jti ≠ "" →
      RedisState.liveBlacklist
        { now := 0, reachable := true, blacklist := [("j1", 100)],
          userTokens := [("alice", (["j1", "j2"], 100))], tokenUser := [],
          loginAttempts := [], accountLocked := [] } jti = true →
      ∀ l, ({ enabled := true } : RedisTokenBlacklistService).GetUserActiveTokens
        { now := 0, reachable := true, blacklist := [("j1", 100)],
          userTokens := [("alice", (["j1", "j2"], 100))], tokenUser := [],
          loginAttempts := [], accountLocked := [] } "alice" = .ok l → jti ∉ l :=
  activeTokens_filtered_count_raw { enabled := true } rfl
    { now := 0, reachable := true, blacklist := [("j1", 100)],
      userTokens := [("alice", (["j1", "j2"], 100))], tokenUser := [],
      loginAttempts := [], accountLocked := [] } rfl "alice" (by decide)

/-! ### Claim C7 — monotonic-max TTL on the tracked set -/

/-- Remaining TTL of the user's tracked-set key (`none` if absent/expired). -/
def userSetTTL (s : RedisState) (userID : String) : Option Nat :=
  match AList.find? userID s.userTokens with
  | some (_, e) => if s.now < e then some (e - s.now) else none
  | none => none

/-- Two consecutive `TrackUserToken` calls for the same user. -/
def trackTwice (svc : RedisTokenBlacklistService) (s : RedisState)
    (userID j1 : String) (t1 : Nat) (j2 : String) (t2 : Nat) :
    Except String RedisState :=
  match svc.TrackUserToken s userID j1 t1 with
  | .ok s1 => svc.TrackUserToken s1 userID j2 t2
  | .error e => .error e

theorem clamp1_pos (ttl : Nat) : 1 ≤ RedisTokenBlacklistService.clamp1 ttl := by
  unfold RedisTokenBlacklistService.clamp1
  split <;> omega

/-- One `TrackUserToken` call sets the tracked-set TTL to the maximum of the
current remaining TTL and the (clamped) new TTL. -/
theorem trackUserToken_ttl (svc : RedisTokenBlacklistService)
    (hen : svc.enabled = true) (s : RedisState) (hr : s.reachable = true)
    (userID jti : String) (hu : userID ≠ "") (hj : jti ≠ "") (ttl : Nat) :
    ∃ s', svc.TrackUserToken s userID jti ttl = .ok s' ∧
      userSetTTL s' userID = some (match userSetTTL s userID with
        | none => RedisTokenBlacklistService.clamp1 ttl
        | some r => max r (RedisTokenBlacklistService.clamp1 ttl)) ∧
      s'.now = s.now ∧ s'.reachable = s.reachable := by
  have hc := clamp1_pos ttl
  unfold RedisTokenBlacklistService.TrackUserToken
  simp only [hen, hu, hj, hr, Bool.true_eq_false, if_false, ite_false,
    false_or, or_self, or_false, false_and, ne_eq, not_false_iff]
  cases hfind : AList.find? userID s.userTokens with
  | none =>
    refine ⟨_, rfl, ?_, rfl, rfl⟩
    unfold userSetTTL
    rw [AList.find_insert_self, hfind]
    have : s.now < s.now + RedisTokenBlacklistService.clamp1 ttl := by omega
    simp [this]
  | some le =>
    obtain ⟨l, e⟩ := le
    by_cases hlt : s.now < e
    · simp only [hlt, if_true, ite_true]
      refine ⟨_, rfl, ?_, rfl, rfl⟩
      unfold userSetTTL
      rw [AList.find_insert_self, hfind]
      simp only [hlt, if_true, ite_true]
      by_cases hcmp : e - s.now < RedisTokenBlacklistService.clamp1 ttl
      · have h1 : s.now < s.now + RedisTokenBlacklistService.clamp1 ttl := by omega
        simp only [hcmp, if_true, ite_true, h1]
        rw [Nat.add_sub_cancel_left, Nat.max_eq_right (Nat.le_of_lt hcmp)]
      · simp only [hcmp, if_false, ite_false, hlt, if_true, ite_true]
        rw [Nat.max_eq_left (Nat.le_of_not_lt hcmp)]
    · simp only [hlt, if_false, ite_false]
      refine ⟨_, rfl, ?_, rfl, rfl⟩
      unfold userSetTTL
      rw [AList.find_insert_self, hfind]
      have h1 : s.now < s.now + RedisTokenBlacklistService.clamp1 ttl := by omega
      simp [hlt, h1]

/-- Counterexample to C7 as stated: two tracking calls with TTL 0 leave the
set with a 1-second TTL (the service clamps every TTL up to one second), not
`max 0 0 = 0`. -/
theorem trackTwice_ttl_counterexample :
    (trackTwice { enabled := true }
        { now := 0, reachable := true, blacklist := [], userTokens := [],
          tokenUser := [], loginAttempts := [], accountLocked := [] }
        "u" "j1" 0 "j2" 0).map (fun s => userSetTTL s "u") = .ok (some 1) ∧
    some 1 ≠ some (max 0 0) :=
  ⟨rfl, by decide⟩

/-- Claim C7 (amended): starting with no tracked set for the user, two
`TrackUserToken` calls with TTLs `t1` and `t2` leave the set's TTL equal to
`max t1 t2` after clamping each TTL to the service's one-second minimum —
in particular equal to `max t1 t2` whenever both are at least one second —
regardless of call order. -/
theorem trackTwice_monotonic_max (svc : RedisTokenBlacklistService)
    (hen : svc.enabled = true) (s : RedisState) (hr : s.reachable = true)
    (userID j1 j2 : String) (hu : userID ≠ "") (h1 : j1 ≠ "") (h2 : j2 ≠ "")
    (t1 t2 : Nat) (habs : userSetTTL s userID = none) :
    ∃ s12 s21,
      trackTwice svc s userID j1 t1 j2 t2 = .ok s12 ∧
      trackTwice svc s userID j2 t2 j1 t1 = .ok s21 ∧
      userSetTTL s12 userID =
        some (max (RedisTokenBlacklistService.clamp1 t1)
                  (RedisTokenBlacklistService.clamp1 t2)) ∧
      userSetTTL s21 userID =
        some (max (RedisTokenBlacklistService.clamp1 t1)
                  (RedisTokenBlacklistService.clamp1 t2)) := by
  obtain ⟨sa, ha, hta, _, hra⟩ := trackUserToken_ttl svc hen s hr userID j1 hu h1 t1
  rw [habs] at hta
  obtain ⟨sab, hab, htab, _, _⟩ :=
    trackUserToken_ttl svc hen sa (by rw [hra, hr]) userID j2 hu h2 t2
  rw [hta] at htab
  obtain ⟨sb, hb, htb, _, hrb⟩ := trackUserToken_ttl svc hen s hr userID j2 hu h2 t2
  rw [habs] at htb
  obtain ⟨sba, hba, htba, _, _⟩ :=
    trackUserToken_ttl svc hen sb (by rw [hrb, hr]) userID j1 hu h1 t1
  rw [htb] at htba
  refine ⟨sab, sba, ?_, ?_, htab, ?_⟩
  · unfold trackTwice
    rw [ha]
    exact hab
  · unfold trackTwice
    rw [hb]
    exact hba
  · rw [htba, Nat.max_comm]

/-- Witness for the amended C7: TTLs 900 then 604800 (and in the other order)
both leave the set TTL at 604800. -/
theorem trackTwice_monotonic_max_witness :
    ∃ s12 s21,
      trackTwice { enabled := true }
        { now := 0, reachable := true, blacklist := [], userTokens := [],
          tokenUser := [], loginAttempts := [], accountLocked := [] }
        "u" "a" 900 "r" 604800 = .ok s12 ∧
      trackTwice { enabled := true }
        { now := 0, reachable := true, blacklist := [], userTokens := [],
          tokenUser := [], loginAttempts := [], accountLocked := [] }
        "u" "r" 604800 "a" 900 = .ok s21 ∧
      userSetTTL s12 "u" =
        some (max (RedisTokenBlacklistService.clamp1 900)
                  (RedisTokenBlacklistService.clamp1 604800)) ∧
      userSetTTL s21 "u" =
        some (max (RedisTokenBlacklistService.clamp1 900)
                  (RedisTokenBlacklistService.clamp1 604800)) :=
  trackTwice_monotonic_max { enabled := true } rfl
    { now := 0, reachable := true, blacklist := [], userTokens := [],
      tokenUser := [], loginAttempts := [], accountLocked := [] } rfl
    "u" "a" "r" (by decide) (by decide) (by decide) 900 604800 rfl

/-! ### Claim C6 — RevokeAllUserTokens -/

theorem find_foldl_insert_of_not_mem (v : Nat) (l : List String)
    (bl : List (String × Nat)) (j : String) (hj : j ∉ l) :
    AList.find? j (l.foldl (fun acc x => AList.insert x v acc) bl) =
      AList.find? j bl := by
  induction l generalizing bl with
  | nil => rfl
  | cons x xs ih =>
    have hjx : j ≠ x := fun h => hj (h ▸ List.mem_cons_self x xs)
    have hjxs : j ∉ xs := fun h => hj (List.mem_cons_of_mem x h)
    simp only [List.foldl_cons]
    rw [ih _ hjxs, AList.find_insert_ne x j v bl hjx]

theorem find_foldl_insert_of_mem (v : Nat) (l : List String)
    (bl : List (String × Nat)) (j : String) (hj : j ∈ l) :
    AList.find? j (l.foldl (fun acc x => AList.insert x v acc) bl) = some v := by
  induction l generalizing bl with
  | nil => cases hj
  | cons x xs ih =>
    simp only [List.foldl_cons]
    by_cases hmem : j ∈ xs
    · exact ih _ hmem
    · have hjx : j = x := by
        cases hj with
        | head => rfl
        | tail _ h => exact absurd h hmem
      rw [find_foldl_insert_of_not_mem v xs _ j hmem]
      subst hjx
      exact AList.find_insert_self j v bl

/-- Counterexample to C6 as stated: a tracked refresh token expiring at the
default 168h is blacklisted by `RevokeAllUserTokens` with only the uniform
24h TTL, so at time 100000s — while the token is still well within its
lifetime — the blacklist entry has already expired. -/
theorem revokeAll_ttl_counterexample :
    (({ enabled := true } : RedisTokenBlacklistService).RevokeAllUserTokens
        { now := 0, reachable := true, blacklist := [],
          userTokens := [("alice", (["r1"], configDefaultRefreshTokenTTL))],
          tokenUser := [("r1", ("alice", configDefaultRefreshTokenTTL))],
          loginAttempts := [], accountLocked := [] } "alice").map
      (fun s' =>
        (({ enabled := true } : RedisTokenBlacklistService).IsBlacklisted s' "r1",
         ({ enabled := true } : RedisTokenBlacklistService).IsBlacklisted
           (s'.withNow 100000) "r1")) = .ok (.ok true, .ok false) ∧
    100000 < configDefaultRefreshTokenTTL :=
  ⟨rfl, by decide⟩

/-- Claim C6 (amended): `RevokeAllUserTokens` reads the user's full live JTI
set, blacklists every member with the uniform fixed 24h TTL — long enough to
outlive an access token at its default TTL but shorter than the default
refresh-token TTL — clears the set, and afterwards `GetUserActiveTokenCount`
returns 0. -/
theorem revokeAll_blacklists_and_clears (svc : RedisTokenBlacklistService)
    (hen : svc.enabled = true) (s : RedisState) (hr : s.reachable = true)
    (userID : String) (hu : userID ≠ "") :
    ∃ s', svc.RevokeAllUserTokens s userID = .ok s' ∧
      (∀ jti ∈ s.userSet userID,
        AList.find? jti s'.blacklist =
          some (s.now + RedisTokenBlacklistService.revokeAllBlacklistTTL)) ∧
      s'.userSet userID = [] ∧
      svc.GetUserActiveTokenCount s' userID = .ok 0 ∧
      configDefaultAccessTokenTTL ≤ RedisTokenBlacklistService.revokeAllBlacklistTTL ∧
      RedisTokenBlacklistService.revokeAllBlacklistTTL < configDefaultRefreshTokenTTL := by
  unfold RedisTokenBlacklistService.RevokeAllUserTokens
  simp only [hen, hu, hr, Bool.true_eq_false, if_false, ite_false]
  by_cases hemp : s.userSet userID = []
  · simp only [hemp, ite_true, if_true]
    refine ⟨s, rfl, ?_, hemp, ?_, by decide, by decide⟩
    · intro jti hmem
      simp [hemp] at hmem
    · simp [RedisTokenBlacklistService.GetUserActiveTokenCount, hen, hu, hr, hemp]
  · simp only [hemp, ite_false, if_false]
    refine ⟨_, rfl, ?_, ?_, ?_, by decide, by decide⟩
    · intro jti hmem
      exact find_foldl_insert_of_mem _ _ _ _ hmem
    · simp [RedisState.userSet, AList.find_erase_self]
    · simp [RedisTokenBlacklistService.GetUserActiveTokenCount, hen, hu, hr,
        RedisState.userSet, AList.find_erase_self]

/-- Witness for the amended C6: revoking a user with one tracked token. -/
theorem revokeAll_blacklists_and_clears_witness :
    ∃ s', ({ enabled := true } : RedisTokenBlacklistService).RevokeAllUserTokens
        { now := 0, reachable := true, blacklist := [],
          userTokens := [("alice", (["r1"], configDefaultRefreshTokenTTL))],
          tokenUser := [("r1", ("alice", configDefaultRefreshTokenTTL))],
          loginAttempts := [], accountLocked := [] } "alice" = .ok s' ∧
      (∀ jti ∈ RedisState.userSet
          { now := 0, reachable := true, blacklist := [],
            userTokens := [("alice", (["r1"], configDefaultRefreshTokenTTL))],
            tokenUser := [("r1", ("alice", configDefaultRefreshTokenTTL))],
            loginAttempts := [], accountLocked := [] } "alice",
        AList.find? jti s'.blacklist =
          some (0 + RedisTokenBlacklistService.revokeAllBlacklistTTL)) ∧
      s'.userSet "alice" = [] ∧
      ({ enabled := true } : RedisTokenBlacklistService).GetUserActiveTokenCount
        s' "alice" = .ok 0 ∧
      configDefaultAccessTokenTTL ≤ RedisTokenBlacklistService.revokeAllBlacklistTTL ∧
      RedisTokenBlacklistService.revokeAllBlacklistTTL < configDefaultRefreshTokenTTL :=
  revokeAll_blacklists_and_clears { enabled := true } rfl
    { now := 0, reachable := true, blacklist := [],
      userTokens := [("alice", (["r1"], configDefaultRefreshTokenTTL))],
      tokenUser := [("r1", ("alice", configDefaultRefreshTokenTTL))],
      loginAttempts := [], accountLocked := [] } rfl "alice" (by decide)

/-! ### Claim C4 — credential-failure behaviour of Login -/

/-- `IncrementAttempts` under an enabled guard and reachable store: the counter
becomes its live value plus one with a refreshed TTL, and the account is
locked exactly when the new value reaches `maxAttempts`. -/
theorem incrementAttempts_run (g : RedisLoginAttemptService) (s : RedisState)
    (username : String) (hen : g.enabled = true) (hr : s.reachable = true) :
    g.IncrementAttempts s username =
      .ok (RedisLoginAttemptService.attemptsValue s username + 1,
        if g.maxAttempts ≤ RedisLoginAttemptService.attemptsValue s username + 1 then
          { s with
            loginAttempts := AList.insert username
              (RedisLoginAttemptService.attemptsValue s username + 1,
               s.now + g.lockoutDuration) s.loginAttempts,
            accountLocked := AList.insert username
              (s.now + g.lockoutDuration) s.accountLocked }
        else
          { s with
            loginAttempts := AList.insert username
              (RedisLoginAttemptService.attemptsValue s username + 1,
               s.now + g.lockoutDuration) s.loginAttempts }) := by
  unfold RedisLoginAttemptService.IncrementAttempts
  simp only [hen, hr, Bool.true_eq_false, if_false, ite_false]
  by_cases hmax : g.maxAttempts ≤ RedisLoginAttemptService.attemptsValue s username + 1
  · simp only [hmax, if_true, ite_true]
    unfold RedisLoginAttemptService.Lock
    simp [hen, hr]
  · simp [hmax]

/-- The lockout guard configured at the repository defaults. -/
def c4guard : RedisLoginAttemptService :=
  { maxAttempts := 5, lockoutDuration := 900, enabled := true }

/-- A JWT middleware with no blacklist service, for the C4 scenarios. -/
def c4jwt : JWTAuthMiddleware :=
  { secretKey := "s", accessTokenTTL := 900, refreshTokenTTL := 7200,
    enabled := true, blacklistService := none }

/-- An active principal whose password digest matches "right". -/
def c4userActive : User :=
  { id := "u2", username := "carol", email := "c@x",
    passwordHash := Password.Hash "right", role := "Staff",
    isActive := true, isEmailVerified := true }

/-- An inactive principal whose password digest matches "right". -/
def c4userInactive : User :=
  { id := "u3", username := "carol", email := "c@x",
    passwordHash := Password.Hash "right", role := "Staff",
    isActive := false, isEmailVerified := true }

/-- Use case whose repository has no user at all. -/
def c4ucAbsent : AuthUseCase :=
  { jwtAuth := c4jwt, loginAttemptService := some c4guard, users := [] }

/-- Use case whose repository has the active user. -/
def c4ucActive : AuthUseCase :=
  { jwtAuth := c4jwt, loginAttemptService := some c4guard,
    users := [c4userActive] }

/-- Use case whose repository has the inactive user. -/
def c4ucInactive : AuthUseCase :=
  { jwtAuth := c4jwt, loginAttemptService := some c4guard,
    users := [c4userInactive] }

/-- An empty, reachable store at time 0. -/
def c4state : RedisState :=
  { now := 0, reachable := true, blacklist := [], userTokens := [],
    tokenUser := [], loginAttempts := [], accountLocked := [] }

/-- Counterexample to C4 as stated: logging in as an existing but inactive
user — here even with the correct password — fails with `UserInactive`, a
distinct error value, and does not increment the attempt counter (the final
store state is unchanged), unlike the "no such user" and "wrong password"
branches. -/
theorem login_inactive_counterexample :
    c4ucInactive.Login c4state "carol" "right" "a1" "r1" =
      (.error .userInactive, c4state) ∧
    AuthError.userInactive ≠ AuthError.invalidCredentials :=
  ⟨rfl, by decide⟩

/-- Claim C4 (amended): with the lockout guard enabled and the store
reachable, a Login with an unknown username and a Login with a wrong password
against an existing active user behave identically — both increment the
attempt counter for the supplied username and fail with the same
`InvalidCredentials` error, leaving the store in the same state; a Login
against an existing but inactive user, however, fails with the distinct
`UserInactive` error without incrementing the counter. -/
theorem login_credential_failure_behaviour
    (g : RedisLoginAttemptService) (hen : g.enabled = true)
    (ucA ucW ucI : AuthUseCase) (s : RedisState) (hr : s.reachable = true)
    (username pw jA jR : String) (u v : User)
    (hga : ucA.loginAttemptService = some g)
    (hgw : ucW.loginAttemptService = some g)
    (hgi : ucI.loginAttemptService = some g)
    (hnl : g.IsLocked s username = .ok false)
    (habs : ucA.findByUsername username = none)
    (hw : ucW.findByUsername username = some u) (huact : u.isActive = true)
    (hupw : Password.Verify pw u.passwordHash = false)
    (hi : ucI.findByUsername username = some v) (hvact : v.isActive = false) :
    ∃ s', g.IncrementAttempts s username =
        .ok (RedisLoginAttemptService.attemptsValue s username + 1, s') ∧
      ucA.Login s username pw jA jR = (.error .invalidCredentials, s') ∧
      ucW.Login s username pw jA jR = (.error .invalidCredentials, s') ∧
      ucI.Login s username pw jA jR = (.error .userInactive, s) := by
  have hinc := incrementAttempts_run g s username hen hr
  refine ⟨_, hinc, ?_, ?_, ?_⟩
  · simp only [AuthUseCase.Login, hga, hnl, habs,
      AuthUseCase.incrementDiscard, hinc]
  · simp only [AuthUseCase.Login, hgw, hnl, hw, huact, hupw,
      Bool.true_eq_false, if_false, ite_false,
      AuthUseCase.incrementDiscard, hinc]
    simp
  · simp only [AuthUseCase.Login, hgi, hnl, hi, hvact, if_true, ite_true]

/-- Witness for the amended C4 on the three concrete repositories. -/
theorem login_credential_failure_behaviour_witness :
    ∃ s', c4guard.IncrementAttempts c4state "carol" =
        .ok (RedisLoginAttemptService.attemptsValue c4state "carol" + 1, s') ∧
      c4ucAbsent.Login c4state "carol" "wrong" "a1" "r1" =
        (.error .invalidCredentials, s') ∧
      c4ucActive.Login c4state "carol" "wrong" "a1" "r1" =
        (.error .invalidCredentials, s') ∧
      c4ucInactive.Login c4state "carol" "wrong" "a1" "r1" =
        (.error .userInactive, c4state) :=
  login_credential_failure_behaviour c4guard rfl c4ucAbsent c4ucActive
    c4ucInactive c4state rfl "carol" "wrong" "a1" "r1" c4userActive
    c4userInactive rfl rfl rfl rfl rfl rfl rfl (by decide) rfl rfl

/-! ### Unreachable-store behaviour of the refresh flow (claims C2, C3) -/

theorem blacklist_bestEffort_unreachable (svc : RedisTokenBlacklistService)
    (s : RedisState) (jti : String) (ttl : Nat) (hr : s.reachable = false) :
    AuthUseCase.bestEffort s (svc.Blacklist s jti ttl) = s := by
  unfold RedisTokenBlacklistService.Blacklist
  by_cases hen : svc.enabled = false
  · simp [hen, AuthUseCase.bestEffort]
  · by_cases hj : jti = ""
    · simp [hen, hj, AuthUseCase.bestEffort]
    · simp [hen, hj, hr, AuthUseCase.bestEffort]

theorem untrack_bestEffort_unreachable (svc : RedisTokenBlacklistService)
    (s : RedisState) (userID jti : String) (hr : s.reachable = false) :
    AuthUseCase.bestEffort s (svc.UntrackUserToken s userID jti) = s := by
  unfold RedisTokenBlacklistService.UntrackUserToken
  by_cases hen : svc.enabled = false
  · simp [hen, AuthUseCase.bestEffort]
  · by_cases hargs : userID = "" ∨ jti = ""
    · simp [hen, hargs, AuthUseCase.bestEffort]
    · simp [hen, hargs, hr, AuthUseCase.bestEffort]

theorem track_bestEffort_unreachable (svc : RedisTokenBlacklistService)
    (s : RedisState) (userID jti : String) (ttl : Nat)
    (hr : s.reachable = false) :
    AuthUseCase.bestEffort s (svc.TrackUserToken s userID jti ttl) = s := by
  unfold RedisTokenBlacklistService.TrackUserToken
  by_cases hen : svc.enabled = false
  · simp [hen, AuthUseCase.bestEffort]
  · by_cases hargs : userID = "" ∨ jti = ""
    · simp [hen, hargs, AuthUseCase.bestEffort]
    · simp [hen, hargs, hr, AuthUseCase.bestEffort]

theorem revokeHousekeeping_unreachable (s : RedisState)
    (svc : RedisTokenBlacklistService) (userID : String) (claims : UserClaims)
    (hr : s.reachable = false) :
    AuthUseCase.revokeHousekeeping s svc userID claims = s := by
  unfold AuthUseCase.revokeHousekeeping
  by_cases h0 : 0 < JWTAuthMiddleware.GetTokenRemainingTime s.now claims
  · simp only [h0, if_true, ite_true,
      blacklist_bestEffort_unreachable svc s claims.id _ hr]
    exact untrack_bestEffort_unreachable svc s userID claims.id hr
  · simp only [h0, if_false, ite_false]
    exact untrack_bestEffort_unreachable svc s userID claims.id hr

theorem generateAuthResult_unreachable (uc : AuthUseCase) (s : RedisState)
    (user : User) (jA jR : String) (hr : s.reachable = false) :
    uc.generateAuthResult s user jA jR =
      (.ok { user := user
             accessToken := (uc.jwtAuth.GenerateAccessTokenWithInfo s.now jA
               user.id user.role user.email).token
             refreshToken := (uc.jwtAuth.GenerateRefreshTokenWithInfo s.now jR
               user.id).token
             expiresIn := uc.jwtAuth.accessTokenTTL }, s) := by
  unfold AuthUseCase.generateAuthResult
  cases hbs : uc.jwtAuth.GetBlacklistService with
  | none => rfl
  | some svc =>
    simp only [hbs]
    rw [track_bestEffort_unreachable svc s _ _ _ hr,
      track_bestEffort_unreachable svc s _ _ _ hr]
    rfl

/-- Core of claims C2/C3: with the store unreachable, the reuse-detection
lookup error inside `RefreshToken` is discarded, every revocation write fails
and is discarded, and the call still mints and returns a fresh pair. -/
theorem refresh_unreachable_mints (uc : AuthUseCase)
    (svc : RedisTokenBlacklistService) (s : RedisState) (R : SignedToken)
    (user : User) (jA jR : String) (e : Nat)
    (hsvc : uc.jwtAuth.blacklistService = some svc) (hen : svc.enabled = true)
    (hr : s.reachable = false)
    (hsig : R.signedWith = uc.jwtAuth.secretKey)
    (hexp : R.claims.expiresAt = some e) (hlt : s.now < e)
    (hid : R.claims.id ≠ "") (hsub : R.claims.subject ≠ "")
    (hfind : uc.findByID R.claims.subject = some user)
    (hact : user.isActive = true) :
    uc.RefreshToken s R none jA jR =
      (.ok { user := user
             accessToken := (uc.jwtAuth.GenerateAccessTokenWithInfo s.now jA
               user.id user.role user.email).token
             refreshToken := (uc.jwtAuth.GenerateRefreshTokenWithInfo s.now jR
               user.id).token
             expiresIn := uc.jwtAuth.accessTokenTTL }, s) := by
  have hval : uc.jwtAuth.ValidateToken s.now R = .ok R.claims := by
    unfold JWTAuthMiddleware.ValidateToken
    simp [hsig, hexp, hlt]
  unfold AuthUseCase.RefreshToken
  rw [hval]
  simp only [JWTAuthMiddleware.GetBlacklistService, hsvc, hid, if_true,
    ite_true, if_false, ite_false,
    RedisTokenBlacklistService.isBlacklisted_unreachable svc s R.claims.id hen hr hid,
    hsub, revokeHousekeeping_unreachable s svc R.claims.subject R.claims hr,
    AuthUseCase.oldAccessHousekeeping,
    hfind, hact, Bool.true_eq_false, ne_eq, not_false_iff]
  rw [generateAuthResult_unreachable uc s user jA jR hr]
  simp

/-! ### Claim C2 — fail-closed vs fail-open on blacklist lookup failure -/

/-- JWT middleware with blacklist enabled, for the C2 scenario. -/
def c2jwt : JWTAuthMiddleware :=
  { secretKey := "k2", accessTokenTTL := 900, refreshTokenTTL := 7200,
    enabled := true, blacklistService := some { enabled := true } }

/-- The active principal of the C2 scenario. -/
def c2user : User :=
  { id := "u1", username := "alice", email := "a@x",
    passwordHash := Password.Hash "p", role := "Staff",
    isActive := true, isEmailVerified := true }

/-- Use case for the C2 scenario. -/
def c2uc : AuthUseCase :=
  { jwtAuth := c2jwt, loginAttemptService := none, users := [c2user] }

/-- An unreachable store at time 0. -/
def c2state : RedisState :=
  { now := 0, reachable := false, blacklist := [], userTokens := [],
    tokenUser := [], loginAttempts := [], accountLocked := [] }

/-- A freshly issued refresh token for the C2 scenario. -/
def c2r0 : SignedToken :=
  (c2jwt.GenerateRefreshTokenWithInfo 0 "r0" "u1").token

/-- Counterexample to C2 as stated: with the store unreachable the blacklist
membership lookup fails, yet the reuse-detection re-check inside
`RefreshToken` swallows that failure and the call succeeds (mints a new
pair) instead of rejecting. -/
theorem refresh_blacklist_failure_admits_counterexample :
    ({ enabled := true } : RedisTokenBlacklistService).IsBlacklisted c2state "r0"
      = .error "failed to check token blacklist" ∧
    isOk (c2uc.RefreshToken c2state c2r0 none "a1" "r1").1 = true :=
  ⟨rfl, rfl⟩

/-- Claim C2 (amended): when the blacklist membership lookup fails (store
unreachable), the request-gate middleware fails closed and rejects the
request with 503, but the reuse-detection re-check inside `RefreshToken`
discards the lookup error and proceeds fail-open, continuing rotation and
returning a freshly minted pair. -/
theorem blacklistCheck_failure_split (j : JWTAuthMiddleware)
    (hjen : j.enabled = true) (svc : RedisTokenBlacklistService)
    (hjsvc : j.blacklistService = some svc) (hen : svc.enabled = true)
    (s : RedisState) (hr : s.reachable = false) (tok : SignedToken)
    (claims : UserClaims) (hval : j.ValidateToken s.now tok = .ok claims)
    (hid : claims.id ≠ "") (uc : AuthUseCase)
    (hucsvc : uc.jwtAuth.blacklistService = some svc) (R : SignedToken)
    (user : User) (jA jR : String) (e : Nat)
    (hsig : R.signedWith = uc.jwtAuth.secretKey)
    (hexp : R.claims.expiresAt = some e) (hlt : s.now < e)
    (hrid : R.claims.id ≠ "") (hsub : R.claims.subject ≠ "")
    (hfind : uc.findByID R.claims.subject = some user)
    (hact : user.isActive = true) :
    j.Middleware s (some tok) = .abort 503 ∧
    uc.RefreshToken s R none jA jR =
      (.ok { user := user
             accessToken := (uc.jwtAuth.GenerateAccessTokenWithInfo s.now jA
               user.id user.role user.email).token
             refreshToken := (uc.jwtAuth.GenerateRefreshTokenWithInfo s.now jR
               user.id).token
             expiresIn := uc.jwtAuth.accessTokenTTL }, s) := by
  constructor
  · unfold JWTAuthMiddleware.Middleware
    simp only [hjen, Bool.true_eq_false, if_false, ite_false]
    rw [hval]
    simp only [hjsvc, hid, if_true, ite_true,
      RedisTokenBlacklistService.isBlacklisted_unreachable svc s claims.id hen hr hid,
      ne_eq, not_false_iff]
  · exact refresh_unreachable_mints uc svc s R user jA jR e hucsvc hen hr
      hsig hexp hlt hrid hsub hfind hact

/-- Witness for the amended C2: a concrete validated access token is rejected
with 503 by the gate while a concrete refresh call on the same unreachable
store succeeds. -/
theorem blacklistCheck_failure_split_witness :
    c2jwt.Middleware c2state
        (some (c2jwt.GenerateAccessTokenWithInfo 0 "a0" "u1" "Staff" "a@x").token)
      = .abort 503 ∧
    c2uc.RefreshToken c2state c2r0 none "a1" "r1" =
      (.ok { user := c2user
             accessToken := (c2uc.jwtAuth.GenerateAccessTokenWithInfo
               c2state.now "a1" c2user.id c2user.role c2user.email).token
             refreshToken := (c2uc.jwtAuth.GenerateRefreshTokenWithInfo
               c2state.now "r1" c2user.id).token
             expiresIn := c2uc.jwtAuth.accessTokenTTL }, c2state) :=
  blacklistCheck_failure_split c2jwt rfl { enabled := true } rfl rfl c2state rfl
    (c2jwt.GenerateAccessTokenWithInfo 0 "a0" "u1" "Staff" "a@x").token
    (c2jwt.GenerateAccessTokenWithInfo 0 "a0" "u1" "Staff" "a@x").token.claims
    rfl (by decide) c2uc rfl c2r0 c2user "a1" "r1" 7200 rfl rfl (by decide)
    (by decide) (by decide) rfl rfl

/-! ### Claim C3 — rotation housekeeping failures do not abort -/

/-- JWT middleware with blacklist enabled, for the C3 scenario. -/
def c3jwt : JWTAuthMiddleware :=
  { secretKey := "k3", accessTokenTTL := 900, refreshTokenTTL := 7200,
    enabled := true, blacklistService := some { enabled := true } }

/-- The active principal of the C3 scenario. -/
def c3user : User :=
  { id := "u9", username := "dave", email := "d@x",
    passwordHash := Password.Hash "p", role := "Staff",
    isActive := true, isEmailVerified := true }

/-- Use case for the C3 scenario. -/
def c3uc : AuthUseCase :=
  { jwtAuth := c3jwt, loginAttemptService := none, users := [c3user] }

/-- An unreachable store at time 0, for the C3 scenario. -/
def c3state : RedisState :=
  { now := 0, reachable := false, blacklist := [], userTokens := [],
    tokenUser := [], loginAttempts := [], accountLocked := [] }

/-- A freshly issued refresh token for the C3 scenario. -/
def c3r0 : SignedToken :=
  (c3jwt.GenerateRefreshTokenWithInfo 0 "r9" "u9").token

/-- Counterexample to C3 as stated: the blacklist write revoking the old
refresh token fails, yet `RefreshToken` does not abort — it succeeds and
issues a new pair, leaving the old token unrevoked. -/
theorem refresh_revocation_failure_counterexample :
    ({ enabled := true } : RedisTokenBlacklistService).Blacklist c3state "r9"
        (JWTAuthMiddleware.GetTokenRemainingTime c3state.now c3r0.claims)
      = .error "failed to blacklist token" ∧
    isOk (c3uc.RefreshToken c3state c3r0 none "a1" "r1").1 = true ∧
    (c3uc.RefreshToken c3state c3r0 none "a1" "r1").2 = c3state :=
  ⟨rfl, rfl, rfl⟩

/-- Claim C3 (amended): when revoking the old refresh token fails (the
blacklist write for its JTI returns an error), the error is discarded —
`RefreshToken` continues, minting and returning a new access/refresh pair
with the store left unchanged, instead of aborting. -/
theorem refresh_revocation_failure_ignored (uc : AuthUseCase)
    (svc : RedisTokenBlacklistService) (s : RedisState) (R : SignedToken)
    (user : User) (jA jR : String) (e : Nat)
    (hsvc : uc.jwtAuth.blacklistService = some svc) (hen : svc.enabled = true)
    (hr : s.reachable = false)
    (hsig : R.signedWith = uc.jwtAuth.secretKey)
    (hexp : R.claims.expiresAt = some e) (hlt : s.now < e)
    (hid : R.claims.id ≠ "") (hsub : R.claims.subject ≠ "")
    (hfind : uc.findByID R.claims.subject = some user)
    (hact : user.isActive = true) :
    svc.Blacklist s R.claims.id
        (JWTAuthMiddleware.GetTokenRemainingTime s.now R.claims)
      = .error "failed to blacklist token" ∧
    uc.RefreshToken s R none jA jR =
      (.ok { user := user
             accessToken := (uc.jwtAuth.GenerateAccessTokenWithInfo s.now jA
               user.id user.role user.email).token
             refreshToken := (uc.jwtAuth.GenerateRefreshTokenWithInfo s.now jR
               user.id).token
             expiresIn := uc.jwtAuth.accessTokenTTL }, s) :=
  ⟨RedisTokenBlacklistService.blacklist_unreachable svc s R.claims.id _ hen hr hid,
   refresh_unreachable_mints uc svc s R user jA jR e hsvc hen hr hsig hexp hlt
     hid hsub hfind hact⟩

/-- Witness for the amended C3 on the concrete scenario. -/
theorem refresh_revocation_failure_ignored_witness :
    ({ enabled := true } : RedisTokenBlacklistService).Blacklist c3state
        c3r0.claims.id
        (JWTAuthMiddleware.GetTokenRemainingTime c3state.now c3r0.claims)
      = .error "failed to blacklist token" ∧
    c3uc.RefreshToken c3state c3r0 none "a1" "r1" =
      (.ok { user := c3user
             accessToken := (c3uc.jwtAuth.GenerateAccessTokenWithInfo
               c3state.now "a1" c3user.id c3user.role c3user.email).token
             refreshToken := (c3uc.jwtAuth.GenerateRefreshTokenWithInfo
               c3state.now "r1" c3user.id).token
             expiresIn := c3uc.jwtAuth.accessTokenTTL }, c3state) :=
  refresh_revocation_failure_ignored c3uc { enabled := true } c3state c3r0
    c3user "a1" "r1" 7200 rfl rfl rfl rfl rfl (by decide) (by decide)
    (by decide) rfl rfl

/-! ### Claim C1 — rotation reuse detection -/

theorem bestEffort_ok (s x : RedisState) :
    AuthUseCase.bestEffort s (.ok x) = x := rfl

theorem blacklist_bestEffort_preserves (svc : RedisTokenBlacklistService)
    (s : RedisState) (jti : String) (ttl : Nat) :
    (AuthUseCase.bestEffort s (svc.Blacklist s jti ttl)).now = s.now ∧
    (AuthUseCase.bestEffort s (svc.Blacklist s jti ttl)).reachable = s.reachable ∧
    ∀ j, j ≠ jti →
      AList.find? j (AuthUseCase.bestEffort s (svc.Blacklist s jti ttl)).blacklist
        = AList.find? j s.blacklist := by
  unfold RedisTokenBlacklistService.Blacklist AuthUseCase.bestEffort
  by_cases hen : svc.enabled = false
  · simp [hen]
  · by_cases hj : jti = ""
    · simp [hen, hj]
    · by_cases hrr : s.reachable = false
      · simp [hen, hj, hrr]
      · simp only [hen, hj, hrr, if_false, ite_false]
        refine ⟨rfl, rfl, ?_⟩
        intro j hne
        exact AList.find_insert_ne jti j _ s.blacklist hne

/-- Rotation housekeeping on a token with positive remaining lifetime (store
reachable, service enabled) records a blacklist entry expiring exactly at the
token's `expiresAt`. -/
theorem revokeHousekeeping_blacklists (svc : RedisTokenBlacklistService)
    (s : RedisState) (uid : String) (claims : UserClaims) (e : Nat)
    (hen : svc.enabled = true) (hr : s.reachable = true)
    (hid : claims.id ≠ "") (hexp : claims.expiresAt = some e)
    (hlt : s.now < e) :
    AList.find? claims.id
        (AuthUseCase.revokeHousekeeping s svc uid claims).blacklist = some e ∧
    (AuthUseCase.revokeHousekeeping s svc uid claims).now = s.now ∧
    (AuthUseCase.revokeHousekeeping s svc uid claims).reachable = true := by
  have hrem : JWTAuthMiddleware.GetTokenRemainingTime s.now claims = e - s.now := by
    unfold JWTAuthMiddleware.GetTokenRemainingTime
    rw [hexp]
  have hpos : 0 < e - s.now := by omega
  have hclamp : RedisTokenBlacklistService.clamp1 (e - s.now) = e - s.now := by
    unfold RedisTokenBlacklistService.clamp1
    rw [if_neg (by omega)]
  have hbl : svc.Blacklist s claims.id (e - s.now) =
      .ok { s with blacklist := AList.insert claims.id e s.blacklist } := by
    rw [RedisTokenBlacklistService.blacklist_run svc s claims.id _ hen hr hid,
      hclamp]
    have : s.now + (e - s.now) = e := by omega
    rw [this]
  unfold AuthUseCase.revokeHousekeeping
  rw [hrem]
  simp only [hpos, if_true, ite_true, hbl, bestEffort_ok]
  have hup := AuthUseCase.bestEffort_untrack_preserves svc
    { s with blacklist := AList.insert claims.id e s.blacklist } uid claims.id
  refine ⟨?_, ?_, ?_⟩
  · rw [hup.1]
    exact AList.find_insert_self claims.id e s.blacklist
  · rw [hup.2.1]
  · rw [hup.2.2]
    exact hr

/-- Rotation housekeeping never touches blacklist entries for other JTIs, the
clock or reachability. -/
theorem revokeHousekeeping_preserves_other (svc : RedisTokenBlacklistService)
    (s : RedisState) (uid : String) (claims : UserClaims) (j : String)
    (hj : j ≠ claims.id) :
    AList.find? j (AuthUseCase.revokeHousekeeping s svc uid claims).blacklist
      = AList.find? j s.blacklist ∧
    (AuthUseCase.revokeHousekeeping s svc uid claims).now = s.now ∧
    (AuthUseCase.revokeHousekeeping s svc uid claims).reachable = s.reachable := by
  unfold AuthUseCase.revokeHousekeeping
  by_cases h0 : 0 < JWTAuthMiddleware.GetTokenRemainingTime s.now claims
  · simp only [h0, if_true, ite_true]
    have hbp := blacklist_bestEffort_preserves svc s claims.id
      (JWTAuthMiddleware.GetTokenRemainingTime s.now claims)
    have hup := AuthUseCase.bestEffort_untrack_preserves svc
      (AuthUseCase.bestEffort s (svc.Blacklist s claims.id
        (JWTAuthMiddleware.GetTokenRemainingTime s.now claims))) uid claims.id
    refine ⟨?_, ?_, ?_⟩
    · rw [hup.1, hbp.2.2 j hj]
    · rw [hup.2.1, hbp.1]
    · rw [hup.2.2, hbp.2.1]
  · simp only [h0, if_false, ite_false]
    have hup := AuthUseCase.bestEffort_untrack_preserves svc s uid claims.id
    exact ⟨by rw [hup.1], hup.2.1, hup.2.2⟩

theorem parseIgnoreExpiry_ok_claims (j : JWTAuthMiddleware) (t : SignedToken)
    (c : UserClaims) (h : j.ParseTokenIgnoreExpiry t = .ok c) : c = t.claims := by
  unfold JWTAuthMiddleware.ParseTokenIgnoreExpiry at h
  split at h
  · cases h
  · cases h
    rfl

/-- The old-access-token leg of `RefreshToken` never touches blacklist entries
for a JTI other than the old access token's own, nor the clock or
reachability. -/
theorem oldAccessHousekeeping_preserves (uc : AuthUseCase)
    (svc : RedisTokenBlacklistService) (s : RedisState) (uid : String)
    (oldAccess : Option SignedToken) (j : String)
    (hsvc : uc.jwtAuth.blacklistService = some svc)
    (hj : ∀ oa, oldAccess = some oa → j ≠ oa.claims.id) :
    AList.find? j
        (AuthUseCase.oldAccessHousekeeping uc s uid oldAccess).blacklist
      = AList.find? j s.blacklist ∧
    (AuthUseCase.oldAccessHousekeeping uc s uid oldAccess).now = s.now ∧
    (AuthUseCase.oldAccessHousekeeping uc s uid oldAccess).reachable
      = s.reachable := by
  cases oldAccess with
  | none => exact ⟨rfl, rfl, rfl⟩
  | some oa =>
    simp only [AuthUseCase.oldAccessHousekeeping]
    cases hp : uc.jwtAuth.ParseTokenIgnoreExpiry oa with
    | error msg => exact ⟨rfl, rfl, rfl⟩
    | ok oldClaims =>
      simp only [JWTAuthMiddleware.GetBlacklistService, hsvc]
      by_cases hoid : oldClaims.id = ""
      · rw [if_neg (by simp [hoid])]
        exact ⟨rfl, rfl, rfl⟩
      · rw [if_pos hoid]
        have hne : j ≠ oldClaims.id := by
          rw [parseIgnoreExpiry_ok_claims uc.jwtAuth oa oldClaims hp]
          exact hj oa rfl
        exact revokeHousekeeping_preserves_other svc s uid oldClaims j hne

/-- Claim C1: a refresh token `R0` (validly signed, unexpired, carrying a JTI
and subject, not yet blacklisted) that is successfully exchanged by
`RefreshToken` — whose rotation blacklists `R0`'s JTI — is rejected with
`InvalidToken` by any subsequent `RefreshToken` call presenting `R0` again, at
any later (or equal) clock time, with the blacklist service enabled and the
store reachable in both calls; the second call mints nothing and leaves the
store unchanged.  (When an old access token accompanies the first call, its
JTI differs from `R0`'s.) -/
theorem refresh_reuse_detected (uc : AuthUseCase)
    (svc : RedisTokenBlacklistService) (s : RedisState) (R0 : SignedToken)
    (user : User) (oldAccess : Option SignedToken) (jA jR : String) (e : Nat)
    (n2 : Nat) (oldAccess2 : Option SignedToken) (jA2 jR2 : String)
    (hsvc : uc.jwtAuth.blacklistService = some svc) (hen : svc.enabled = true)
    (hr : s.reachable = true)
    (hsig : R0.signedWith = uc.jwtAuth.secretKey)
    (hexp : R0.claims.expiresAt = some e) (hlt : s.now < e)
    (hid : R0.claims.id ≠ "")
    (hnb : s.liveBlacklist R0.claims.id = false)
    (hsub : R0.claims.subject ≠ "")
    (hfind : uc.findByID R0.claims.subject = some user)
    (hact : user.isActive = true)
    (hoa : ∀ oa, oldAccess = some oa → oa.claims.id ≠ R0.claims.id) :
    isOk (uc.RefreshToken s R0 oldAccess jA jR).1 = true ∧
    uc.RefreshToken (((uc.RefreshToken s R0 oldAccess jA jR).2).withNow n2) R0
        oldAccess2 jA2 jR2 =
      (.error .invalidToken,
       ((uc.RefreshToken s R0 oldAccess jA jR).2).withNow n2) := by
  have hval : uc.jwtAuth.ValidateToken s.now R0 = .ok R0.claims := by
    unfold JWTAuthMiddleware.ValidateToken
    simp [hsig, hexp, hlt]
  have hreuse : svc.IsBlacklisted s R0.claims.id = .ok false := by
    rw [RedisTokenBlacklistService.isBlacklisted_run svc s R0.claims.id hen hr hid,
      hnb]
  set s1 := AuthUseCase.revokeHousekeeping s svc R0.claims.subject R0.claims
    with hs1def
  have hH1 := revokeHousekeeping_blacklists svc s R0.claims.subject R0.claims e
    hen hr hid hexp hlt
  rw [← hs1def] at hH1
  set s2 := AuthUseCase.oldAccessHousekeeping uc s1 R0.claims.subject oldAccess
    with hs2def
  have h2 : AList.find? R0.claims.id s2.blacklist = some e ∧
      s2.reachable = true := by
    rw [hs2def]
    have hpre := oldAccessHousekeeping_preserves uc svc s1 R0.claims.subject
      oldAccess R0.claims.id hsvc (fun oa h => (hoa oa h).symm)
    exact ⟨by rw [hpre.1]; exact hH1.1, by rw [hpre.2.2]; exact hH1.2.2⟩
  have hfirst : uc.RefreshToken s R0 oldAccess jA jR =
      uc.generateAuthResult s2 user jA jR := by
    unfold AuthUseCase.RefreshToken
    rw [hval]
    simp only [JWTAuthMiddleware.GetBlacklistService, hsvc, hreuse, hid, hsub,
      ne_eq, not_false_iff, if_true, ite_true, ite_self, Bool.false_eq_true,
      if_false, ite_false]
    rw [← hs1def, ← hs2def]
    rw [hfind]
    simp only [hact, Bool.true_eq_false, if_false, ite_false]
  have hgen := AuthUseCase.generateAuthResult_run uc s2 user jA jR
  constructor
  · rw [hfirst, hgen.1]
    rfl
  · rw [hfirst]
    have htbl : ((uc.generateAuthResult s2 user jA jR).2.withNow n2).blacklist
        = s2.blacklist := hgen.2.1
    have htr : ((uc.generateAuthResult s2 user jA jR).2.withNow n2).reachable
        = true := by
      show (uc.generateAuthResult s2 user jA jR).2.reachable = true
      rw [hgen.2.2.2]
      exact h2.2
    have htn : ((uc.generateAuthResult s2 user jA jR).2.withNow n2).now = n2 := rfl
    set t := (uc.generateAuthResult s2 user jA jR).2.withNow n2 with htdef
    by_cases hn : n2 < e
    · have hval2 : uc.jwtAuth.ValidateToken t.now R0 = .ok R0.claims := by
        unfold JWTAuthMiddleware.ValidateToken
        rw [htn]
        simp [hsig, hexp, hn]
      have hbl2 : svc.IsBlacklisted t R0.claims.id = .ok true := by
        rw [RedisTokenBlacklistService.isBlacklisted_run svc t R0.claims.id hen
          htr hid]
        unfold RedisState.liveBlacklist
        rw [htbl, h2.1, htn]
        simp [hn]
      unfold AuthUseCase.RefreshToken
      rw [hval2]
      simp only [JWTAuthMiddleware.GetBlacklistService, hsvc, hid, hbl2,
        ne_eq, not_false_iff, if_true, ite_true]
    · have hval2 : uc.jwtAuth.ValidateToken t.now R0 =
          .error "token is expired" := by
        unfold JWTAuthMiddleware.ValidateToken
        rw [htn]
        simp [hsig, hexp, hn]
      unfold AuthUseCase.RefreshToken
      rw [hval2]

/-- JWT middleware for the C1 scenario. -/
def c1jwt : JWTAuthMiddleware :=
  { secretKey := "k1", accessTokenTTL := 900, refreshTokenTTL := 7200,
    enabled := true, blacklistService := some { enabled := true } }

/-- The active principal of the C1 scenario. -/
def c1user : User :=
  { id := "u1", username := "alice", email := "a@x",
    passwordHash := Password.Hash "p", role := "Staff",
    isActive := true, isEmailVerified := true }

/-- Use case for the C1 scenario. -/
def c1uc : AuthUseCase :=
  { jwtAuth := c1jwt, loginAttemptService := none, users := [c1user] }

/-- An empty, reachable store at time 0, for the C1 scenario. -/
def c1state : RedisState :=
  { now := 0, reachable := true, blacklist := [], userTokens := [],
    tokenUser := [], loginAttempts := [], accountLocked := [] }

/-- The refresh token rotated away in the C1 scenario. -/
def c1r0 : SignedToken :=
  (c1jwt.GenerateRefreshTokenWithInfo 0 "r0" "u1").token

/-- Witness for C1: after a successful concrete exchange of `c1r0`, replaying
`c1r0` an hour later fails with `InvalidToken`. -/
theorem refresh_reuse_detected_witness :
    isOk (c1uc.RefreshToken c1state c1r0 none "a1" "r1").1 = true ∧
    c1uc.RefreshToken
        (((c1uc.RefreshToken c1state c1r0 none "a1" "r1").2).withNow 3600) c1r0
        none "a2" "r2" =
      (.error .invalidToken,
       ((c1uc.RefreshToken c1state c1r0 none "a1" "r1").2).withNow 3600) :=
  refresh_reuse_detected c1uc { enabled := true } c1state c1r0 c1user none
    "a1" "r1" 7200 3600 none "a2" "r2" rfl rfl rfl rfl rfl (by decide)
    (by decide) rfl (by decide) rfl rfl
    (fun _ h => Option.noConfusion h)

/-! ### Claim C5 — lockout after maxAttempts failed logins -/

/-- A Login attempt that fails the credential checks on the
counter-incrementing branches: unknown username, or active user with a
non-matching password. -/
def failsCred (uc : AuthUseCase) (username pw : String) : Prop :=
  match uc.findByUsername username with
  | none => True
  | some u => u.isActive = true ∧ Password.Verify pw u.passwordHash = false

/-- `n` consecutive failed logins, each issued on the store state left by the
previous one (same clock instant). -/
def iterateFailedLogin (uc : AuthUseCase) (username pw jA jR : String) :
    Nat → RedisState → RedisState
  | 0, s => s
  | n + 1, s =>
    (uc.Login (iterateFailedLogin uc username pw jA jR n s) username pw jA jR).2

/-- One failed login on an unlocked account fails with `InvalidCredentials`
and bumps the attempt counter. -/
theorem login_fail_step (uc : AuthUseCase) (g : RedisLoginAttemptService)
    (s : RedisState) (username pw jA jR : String)
    (hsvc : uc.loginAttemptService = some g) (hen : g.enabled = true)
    (hr : s.reachable = true)
    (hnl : AList.find? username s.accountLocked = none)
    (hfail : failsCred uc username pw) :
    uc.Login s username pw jA jR =
      (.error .invalidCredentials,
       AuthUseCase.incrementDiscard (some g) s username) := by
  have hlock : g.IsLocked s username = .ok false := by
    unfold RedisLoginAttemptService.IsLocked
    simp [hen, hr, hnl]
  unfold failsCred at hfail
  cases hfind : uc.findByUsername username with
  | none =>
    simp only [AuthUseCase.Login, hsvc, hlock, hfind]
  | some u =>
    rw [hfind] at hfail
    simp only [AuthUseCase.Login, hsvc, hlock, hfind, hfail.1, hfail.2,
      Bool.true_eq_false, if_false, ite_false]
    simp

/-- Invariant of consecutive failed logins below the lockout threshold: the
clock, reachability and lock keyspace are untouched and the counter equals the
number of attempts so far. -/
theorem iterateFailedLogin_invariant (uc : AuthUseCase)
    (g : RedisLoginAttemptService) (username pw jA jR : String)
    (hsvc : uc.loginAttemptService = some g) (hen : g.enabled = true)
    (hdur : 0 < g.lockoutDuration) (s : RedisState) (hr : s.reachable = true)
    (hcl1 : AList.find? username s.loginAttempts = none)
    (hcl2 : AList.find? username s.accountLocked = none)
    (hfail : failsCred uc username pw) :
    ∀ k, k < g.maxAttempts →
      (iterateFailedLogin uc username pw jA jR k s).now = s.now ∧
      (iterateFailedLogin uc username pw jA jR k s).reachable = true ∧
      (iterateFailedLogin uc username pw jA jR k s).accountLocked
        = s.accountLocked ∧
      RedisLoginAttemptService.attemptsValue
        (iterateFailedLogin uc username pw jA jR k s) username = k := by
  intro k
  induction k with
  | zero =>
    intro _
    refine ⟨rfl, hr, rfl, ?_⟩
    show RedisLoginAttemptService.attemptsValue s username = 0
    unfold RedisLoginAttemptService.attemptsValue
    rw [hcl1]
  | succ k ih =>
    intro hk
    obtain ⟨ihnow, ihr, ihlock, ihval⟩ := ih (by omega)
    set sk := iterateFailedLogin uc username pw jA jR k s with hskdef
    have hsknl : AList.find? username sk.accountLocked = none := by
      rw [ihlock]
      exact hcl2
    have hstep := login_fail_step uc g sk username pw jA jR hsvc hen ihr hsknl
      hfail
    have hinc := incrementAttempts_run g sk username hen ihr
    rw [ihval] at hinc
    have hnotmax : ¬ g.maxAttempts ≤ k + 1 := by omega
    have hdisc : AuthUseCase.incrementDiscard (some g) sk username =
        { sk with
          loginAttempts :=
            AList.insert username (k + 1, sk.now + g.lockoutDuration)
              sk.loginAttempts } := by
      simp only [AuthUseCase.incrementDiscard, hinc, if_neg hnotmax]
    have hiter : iterateFailedLogin uc username pw jA jR (k + 1) s =
        AuthUseCase.incrementDiscard (some g) sk username := by
      show (uc.Login sk username pw jA jR).2 = _
      rw [hstep]
    rw [hiter, hdisc]
    refine ⟨ihnow, ihr, ihlock, ?_⟩
    unfold RedisLoginAttemptService.attemptsValue
    simp only [AList.find_insert_self]
    simp [show sk.now < sk.now + g.lockoutDuration from by omega]

/-- After exactly `maxAttempts` consecutive failed logins from a clean state,
the account-lock marker is written with TTL = lockout duration. -/
theorem iterateFailedLogin_locks (uc : AuthUseCase)
    (g : RedisLoginAttemptService) (username pw jA jR : String)
    (hsvc : uc.loginAttemptService = some g) (hen : g.enabled = true)
    (hdur : 0 < g.lockoutDuration) (hmaxpos : 0 < g.maxAttempts)
    (s : RedisState) (hr : s.reachable = true)
    (hcl1 : AList.find? username s.loginAttempts = none)
    (hcl2 : AList.find? username s.accountLocked = none)
    (hfail : failsCred uc username pw) :
    (iterateFailedLogin uc username pw jA jR g.maxAttempts s).now = s.now ∧
    (iterateFailedLogin uc username pw jA jR g.maxAttempts s).reachable
      = true ∧
    AList.find? username
        (iterateFailedLogin uc username pw jA jR g.maxAttempts s).accountLocked
      = some (s.now + g.lockoutDuration) := by
  obtain ⟨m, hm⟩ : ∃ m, g.maxAttempts = m + 1 :=
    ⟨g.maxAttempts - 1, by omega⟩
  obtain ⟨ihnow, ihr, ihlock, ihval⟩ := iterateFailedLogin_invariant uc g
    username pw jA jR hsvc hen hdur s hr hcl1 hcl2 hfail m (by omega)
  set sm := iterateFailedLogin uc username pw jA jR m s with hsmdef
  have hsmnl : AList.find? username sm.accountLocked = none := by
    rw [ihlock]
    exact hcl2
  have hstep := login_fail_step uc g sm username pw jA jR hsvc hen ihr hsmnl
    hfail
  have hinc := incrementAttempts_run g sm username hen ihr
  rw [ihval] at hinc
  have hmaxle : g.maxAttempts ≤ m + 1 := by omega
  have hiter : iterateFailedLogin uc username pw jA jR g.maxAttempts s =
      AuthUseCase.incrementDiscard (some g) sm username := by
    rw [hm]
    show (uc.Login sm username pw jA jR).2 = _
    rw [hstep]
  have hdisc : AuthUseCase.incrementDiscard (some g) sm username =
      { sm with
        loginAttempts :=
          AList.insert username (m + 1, sm.now + g.lockoutDuration)
            sm.loginAttempts,
        accountLocked :=
          AList.insert username (sm.now + g.lockoutDuration)
            sm.accountLocked } := by
    simp only [AuthUseCase.incrementDiscard, hinc, if_pos hmaxle]
  rw [hiter, hdisc]
  refine ⟨ihnow, ihr, ?_⟩
  simp only [AList.find_insert_self, ihnow]

/-- Claim C5: after `maxAttempts` (default 5) consecutive failed login
attempts on a clean account, `isLocked` answers true, and every subsequent
Login for that username — for any password, even the correct one, and any
principal repository — is rejected with `AccountLocked` carrying
`remainingSeconds > 0`, before any credential check and with the store left
unchanged, as long as the lock's TTL (default 15 minutes = 900 s) has not yet
elapsed. -/
theorem lockout_after_max_attempts (g : RedisLoginAttemptService)
    (uc uc2 : AuthUseCase) (s : RedisState)
    (username pw pw2 jA jR jA2 jR2 : String) (n2 : Nat)
    (hen : g.enabled = true) (hmax : g.maxAttempts = 5)
    (hdur : g.lockoutDuration = 900)
    (hsvc : uc.loginAttemptService = some g)
    (hsvc2 : uc2.loginAttemptService = some g)
    (hr : s.reachable = true)
    (hcl1 : AList.find? username s.loginAttempts = none)
    (hcl2 : AList.find? username s.accountLocked = none)
    (hfail : failsCred uc username pw)
    (hn2 : n2 < s.now + 900) :
    g.IsLocked (iterateFailedLogin uc username pw jA jR 5 s) username
      = .ok true ∧
    uc2.Login ((iterateFailedLogin uc username pw jA jR 5 s).withNow n2)
        username pw2 jA2 jR2 =
      (.error (.accountLocked (s.now + 900 - n2)),
       (iterateFailedLogin uc username pw jA jR 5 s).withNow n2) ∧
    0 < s.now + 900 - n2 := by
  have hlocks := iterateFailedLogin_locks uc g username pw jA jR hsvc hen
    (by omega) (by omega) s hr hcl1 hcl2 hfail
  rw [hmax, hdur] at hlocks
  obtain ⟨hnow, hreach, hlock⟩ := hlocks
  set sm := iterateFailedLogin uc username pw jA jR 5 s with hsmdef
  constructor
  · unfold RedisLoginAttemptService.IsLocked
    simp only [hen, hreach, Bool.true_eq_false, if_false, ite_false, hlock]
    simp only [hnow]
    simp [show s.now < s.now + 900 from by omega]
  constructor
  · have htr : (sm.withNow n2).reachable = true := hreach
    have htlock : AList.find? username (sm.withNow n2).accountLocked
        = some (s.now + 900) := hlock
    have hlocked : g.IsLocked (sm.withNow n2) username = .ok true := by
      unfold RedisLoginAttemptService.IsLocked
      simp only [hen, htr, Bool.true_eq_false, if_false, ite_false, htlock]
      simp [show (sm.withNow n2).now < s.now + 900 from hn2]
    have hrem : g.GetRemainingLockTime (sm.withNow n2) username
        = .ok (s.now + 900 - n2) := by
      unfold RedisLoginAttemptService.GetRemainingLockTime
      simp only [hen, htr, Bool.true_eq_false, if_false, ite_false, htlock]
      simp [show (sm.withNow n2).now < s.now + 900 from hn2]
      rfl
    simp only [AuthUseCase.Login, hsvc2, hlocked, hrem]
  · omega

/-- The lockout guard of the C5 scenario, at the repository defaults. -/
def c5guard : RedisLoginAttemptService :=
  { maxAttempts := 5, lockoutDuration := 900, enabled := true }

/-- JWT middleware for the C5 scenario (no blacklist service). -/
def c5jwt : JWTAuthMiddleware :=
  { secretKey := "k5", accessTokenTTL := 900, refreshTokenTTL := 7200,
    enabled := true, blacklistService := none }

/-- The active principal of the C5 scenario. -/
def c5alice : User :=
  { id := "u5", username := "alice", email := "a@x",
    passwordHash := Password.Hash "right", role := "Staff",
    isActive := true, isEmailVerified := true }

/-- Use case for the C5 scenario: one active principal. -/
def c5uc : AuthUseCase :=
  { jwtAuth := c5jwt, loginAttemptService := some c5guard,
    users := [c5alice] }

/-- An empty, reachable store at time 0, for the C5 scenario. -/
def c5state : RedisState :=
  { now := 0, reachable := true, blacklist := [], userTokens := [],
    tokenUser := [], loginAttempts := [], accountLocked := [] }

/-- Witness for C5: alice fails login 5 times with a wrong password; the 6th
attempt 100 seconds later with the correct password is rejected with
`AccountLocked` and 800 remaining seconds. -/
theorem lockout_after_max_attempts_witness :
    c5guard.IsLocked (iterateFailedLogin c5uc "alice" "wrong" "a1" "r1" 5
        c5state) "alice" = .ok true ∧
    c5uc.Login ((iterateFailedLogin c5uc "alice" "wrong" "a1" "r1" 5
        c5state).withNow 100) "alice" "right" "a2" "r2" =
      (.error (.accountLocked (c5state.now + 900 - 100)),
       (iterateFailedLogin c5uc "alice" "wrong" "a1" "r1" 5
         c5state).withNow 100) ∧
    0 < c5state.now + 900 - 100 :=
  lockout_after_max_attempts c5guard c5uc c5uc c5state "alice" "wrong" "right"
    "a1" "r1" "a2" "r2" 100 rfl rfl rfl rfl rfl rfl rfl rfl
    (by exact ⟨rfl, by decide⟩) (by decide)

end GoClean
